import Mathlib

/-!
Shallow embedding of the gb-emulator-python core (src/memory.py, src/gpu.py,
src/system_interface.py, src/cpu.py) and proofs about the claims of the
specification.  Machine integers are modelled as `Nat` (Python ints are
unbounded; masks appear exactly where the source masks), with `Int` used
locally where a Python expression can go negative before being masked.
-/

namespace GbEmu

/-- CPU register dictionary of `GbZ80Cpu.registers` (src/cpu.py). -/
structure CpuRegs where
  a : Nat
  f : Nat
  b : Nat
  c : Nat
  d : Nat
  e : Nat
  h : Nat
  l : Nat
  ime : Nat
  pc : Nat
  sp : Nat
  m : Nat
deriving Repr

/-- The `rsv` saved-register dictionary of `GbZ80Cpu` (src/cpu.py). -/
structure Snapshot where
  a : Nat
  b : Nat
  c : Nat
  d : Nat
  e : Nat
  f : Nat
  h : Nat
  l : Nat
deriving Repr

/-- Mutable fields of `GbGpu` (src/gpu.py).  `tileSet` is the decoded tile
cache `tile_set[tile][row][x]`; `screen` is the flat `screen['data']` list. -/
structure GpuState where
  linemode : Nat
  modeClock : Nat
  vblankCounter : Nat
  curscan : Nat
  tileSet : Nat → Nat → Nat → Nat
  screen : Nat → Nat

/-- Combined machine: CPU (`GbZ80Cpu`), memory (`GbMemory`), GPU (`GbGpu`),
wired through `GbSystemInterface` as in src/main.py. -/
structure Machine where
  regs : CpuRegs
  rsv : Snapshot
  clockM : Nat
  mem : Nat → Nat
  testMode : Bool
  gpu : GpuState

/-- Python `x &= ~mask` on a nonnegative int: clear the bits of `mask`. -/
def pyAndNot (x mask : Nat) : Nat := x - (x &&& mask)

/-- Python `(x - 1) & 0xFF` (two's-complement wrap of the decrement). -/
def dec8 (x : Nat) : Nat := (x + 255) &&& 0xFF

/-- Point update of the flat 64 KiB byte array (`GbMemory.memory`). -/
def memWrite (mem : Nat → Nat) (addr v : Nat) : Nat → Nat :=
  fun i => if i = addr then v else mem i

/-- `GbMemory.read_byte` (src/memory.py): the test-mode hook forces reads of
0xFF44 to 0x90. -/
def memReadByte (s : Machine) (addr : Nat) : Nat :=
  if addr = 0xFF44 ∧ s.testMode = true then 0x90 else s.mem addr

/-- `GbSystemInterface.read_byte` delegates to `GbMemory.read_byte`. -/
def busRead (s : Machine) (addr : Nat) : Nat := memReadByte s addr

/-- `GbMemory.read_word` / `GbSystemInterface.read_word`:
`read_byte(a) + (read_byte(a+1) << 8)`. -/
def busReadWord (s : Machine) (addr : Nat) : Nat :=
  busRead s addr + (busRead s (addr + 1) <<< 8)

/-- `GbGpu.update_tile` (src/gpu.py).  Note: the source computes
`base_addr = addr & 0x1FFE` and reads the two bytes through the system
interface at `base_addr` and `base_addr + 1`, i.e. from addresses
0x0000-0x1FFF, not from the VRAM address that was written. -/
def updateTile (s : Machine) (addr : Nat) : Machine :=
  let baseAddr := addr &&& 0x1FFE
  let tileIndex := (baseAddr >>> 4) &&& 511
  let row := (baseAddr >>> 1) &&& 7
  let byte1 := busRead s baseAddr
  let byte2 := busRead s (baseAddr + 1)
  let newTileSet : Nat → Nat → Nat → Nat := fun t r x =>
    if t = tileIndex ∧ r = row ∧ x < 8 then
      (if byte1 &&& (1 <<< (7 - x)) ≠ 0 then 1 else 0) +
      (if byte2 &&& (1 <<< (7 - x)) ≠ 0 then 2 else 0)
    else s.gpu.tileSet t r x
  { s with gpu := { s.gpu with tileSet := newTileSet } }

/-- `GbSystemInterface.write_byte` (src/system_interface.py): store the byte,
then fan out to `GbGpu.update_tile` for the VRAM tile area. -/
def busWrite (s : Machine) (addr v : Nat) : Machine :=
  let s1 : Machine := { s with mem := memWrite s.mem addr v }
  if 0x8000 ≤ addr ∧ addr ≤ 0x97FF then updateTile s1 addr else s1

/-- `GbGpu.lcdc`. -/
def lcdc (s : Machine) : Nat := busRead s 0xFF40

/-- `GbGpu.is_display_enabled`. -/
def isDisplayEnabled (s : Machine) : Bool := lcdc s &&& 0x80 != 0

/-- `GbGpu.is_background_enabled`. -/
def isBackgroundEnabled (s : Machine) : Bool := lcdc s &&& 0x01 != 0

/-- `GbGpu.get_tile_map_base`. -/
def getTileMapBase (s : Machine) : Nat :=
  if lcdc s &&& 0x08 ≠ 0 then 0x9C00 else 0x9800

/-- `GbGpu.get_tile_data_base`. -/
def getTileDataBase (s : Machine) : Nat :=
  if lcdc s &&& 0x10 ≠ 0 then 0x8000 else 0x8800

/-- The `_palette['bg']` list of `GbGpu`. -/
def bgPalette (i : Nat) : Nat := [255, 192, 96, 0].getD i 0

/-- `GbGpu._update_stat_register`. -/
def updateStatRegister (s : Machine) : Machine :=
  let stat := busRead s 0xFF41 &&& 0b11111000
  let stat := stat ||| (s.gpu.linemode &&& 0b11)
  let stat := stat ||| 0b100
  let stat := if busRead s 0xFF44 = busRead s 0xFF45 then stat ||| 0b1000 else stat
  busWrite s 0xFF41 stat

/-- The pixel loop of `GbGpu._renderscan`: the loop body only writes slices of
`screen['data']`, so it is embedded as a fold producing the new screen
function (memory and registers are not modified within the loop). -/
def renderscanPixels (s : Machine) (line tileRow tilePixelRow mapBase tilesetBase : Nat)
    (signedAddressing : Bool) : Nat → Nat :=
  (List.range 160).foldl (fun scr x =>
    let xScrolled := (x + busRead s 0xFF43) &&& 0xFF
    let tileCol := xScrolled >>> 3
    let tilePixelCol := xScrolled &&& 7
    let tileAddr := mapBase + tileRow * 32 + tileCol
    let tileId := busRead s tileAddr
    let tileLoc : Nat :=
      if signedAddressing then
        (((0x9000 : Int) +
          (if 127 < tileId then (tileId : Int) - 256 else (tileId : Int)) * 16).toNat)
      else tilesetBase + tileId * 16
    let byte1 := busRead s (tileLoc + tilePixelRow * 2)
    let byte2 := busRead s (tileLoc + tilePixelRow * 2 + 1)
    let bitIndex := 7 - tilePixelCol
    let colorIndex := (((byte2 >>> bitIndex) &&& 1) <<< 1) ||| ((byte1 >>> bitIndex) &&& 1)
    let colorVal := bgPalette colorIndex
    fun i =>
      if (line * 160 + x) * 4 ≤ i ∧ i < (line * 160 + x) * 4 + 4 then
        (if i = (line * 160 + x) * 4 + 3 then 255 else colorVal)
      else scr i)
    s.gpu.screen

/-- `GbGpu._renderscan`. -/
def renderscan (s : Machine) : Machine :=
  if s.gpu.vblankCounter < 10 then s
  else
    let line := busRead s 0xFF44
    if ¬ (isDisplayEnabled s = true) ∨ ¬ (isBackgroundEnabled s = true) then s
    else
      let y := (line + busRead s 0xFF42) &&& 0xFF
      let tileRow := y >>> 3
      let tilePixelRow := y &&& 7
      let mapBase := getTileMapBase s
      let tilesetBase := getTileDataBase s
      let signedAddressing := tilesetBase == 0x8800
      let scr := renderscanPixels s line tileRow tilePixelRow mapBase tilesetBase signedAddressing
      { s with gpu := { s.gpu with screen := scr } }

/-- `GbGpu._h_blank_render_screen` (debug prints omitted). -/
def hBlankRenderScreen (s : Machine) : Machine :=
  if 51 ≤ s.gpu.modeClock then
    let currLine := busRead s 0xFF44
    let s :=
      if currLine = 143 then
        let s : Machine := { s with gpu :=
          { s.gpu with linemode := 1, vblankCounter := s.gpu.vblankCounter + 1 } }
        let iflags := busRead s 0xFF0F
        busWrite s 0xFF0F (iflags ||| 0x01)
      else { s with gpu := { s.gpu with linemode := 2 } }
    let s := updateStatRegister s
    let s := busWrite s 0xFF44 ((currLine + 1) &&& 0xFF)
    { s with gpu := { s.gpu with modeClock := 0 } }
  else s

/-- `GbGpu._v_blank`. -/
def vBlank (s : Machine) : Machine :=
  if 114 ≤ s.gpu.modeClock then
    let s : Machine := { s with gpu := { s.gpu with modeClock := 0 } }
    let s := busWrite s 0xFF44 ((busRead s 0xFF44 + 1) &&& 0xFF)
    if 153 < busRead s 0xFF44 then
      let s := busWrite s 0xFF44 0
      let s : Machine := { s with gpu := { s.gpu with curscan := 0, linemode := 2 } }
      updateStatRegister s
    else s
  else s

/-- `GbGpu._oam_read_mode`. -/
def oamReadMode (s : Machine) : Machine :=
  if 20 ≤ s.gpu.modeClock then
    updateStatRegister { s with gpu := { s.gpu with modeClock := 0, linemode := 3 } }
  else s

/-- `GbGpu._vram_read_mode`. -/
def vramReadMode (s : Machine) : Machine :=
  if 43 ≤ s.gpu.modeClock then
    let s : Machine := { s with gpu := { s.gpu with modeClock := 0, linemode := 0 } }
    renderscan (updateStatRegister s)
  else s

/-- `GbGpu.step`: accumulate into `mode_clock`, then run the handler selected
by `linemode` (always one of 0..3 in reachable states). -/
def gpuStep (s : Machine) (mAmount : Nat) : Machine :=
  let s : Machine := { s with gpu := { s.gpu with modeClock := s.gpu.modeClock + mAmount } }
  if s.gpu.linemode = 0 then hBlankRenderScreen s
  else if s.gpu.linemode = 1 then vBlank s
  else if s.gpu.linemode = 2 then oamReadMode s
  else vramReadMode s

/-- `GbZ80Cpu.read8`. -/
def read8 (s : Machine) (addr : Nat) : Nat := busRead s addr

/-- `GbZ80Cpu.write8`. -/
def write8 (s : Machine) (addr v : Nat) : Machine := busWrite s addr v

/-- `GbZ80Cpu.read16`. -/
def read16 (s : Machine) (addr : Nat) : Nat := busReadWord s addr

/-- `GbZ80Cpu.write16`: two system-interface byte writes, low byte first. -/
def write16 (s : Machine) (addr v : Nat) : Machine :=
  let s1 := busWrite s addr (v &&& 0xFF)
  busWrite s1 (addr + 1) ((v >>> 8) &&& 0xFF)

/-- `GbZ80Cpu._inc_clock`: accumulate the per-instruction cycle register into
the clock, then step the GPU by `m * 4` (source comment: "1 m = 4 cycles"). -/
def incClock (s : Machine) : Machine :=
  let s1 : Machine := { s with clockM := s.clockM + s.regs.m }
  gpuStep s1 (s1.regs.m * 4)

/-- `GbZ80Cpu._execute_interrupt`. -/
def executeInterrupt (s : Machine) (bit addr : Nat) : Machine :=
  let s : Machine := { s with regs := { s.regs with ime := 0 } }
  let iflags := busRead s 0xFF0F
  let s := busWrite s 0xFF0F (pyAndNot iflags (1 <<< bit))
  let s : Machine := { s with regs := { s.regs with sp := s.regs.sp - 2 } }
  let s := write16 s s.regs.sp s.regs.pc
  { s with regs := { s.regs with pc := addr, m := 5 } }

/-- `GbZ80Cpu.handle_interrupts`: the enumerate-loop over the five vectors is
unrolled; it fires on the lowest-numbered set bit of `IE & IF` (only bits 0-4
are scanned). -/
def handleInterrupts (s : Machine) : Machine :=
  if s.regs.ime = 0 then s
  else
    let triggered := busRead s 0xFFFF &&& busRead s 0xFF0F
    if triggered &&& 1 ≠ 0 then executeInterrupt s 0 0x40
    else if triggered &&& 2 ≠ 0 then executeInterrupt s 1 0x48
    else if triggered &&& 4 ≠ 0 then executeInterrupt s 2 0x50
    else if triggered &&& 8 ≠ 0 then executeInterrupt s 3 0x58
    else if triggered &&& 16 ≠ 0 then executeInterrupt s 4 0x60
    else s

/-- Names of the 8-bit registers, as used for the string arguments of the
opcode dispatch table. -/
inductive Reg8 where
  | a | b | c | d | e | f | h | l
deriving DecidableEq, Repr

/-- Read `self.registers[r]`. -/
def getReg (s : Machine) (r : Reg8) : Nat :=
  match r with
  | .a => s.regs.a
  | .b => s.regs.b
  | .c => s.regs.c
  | .d => s.regs.d
  | .e => s.regs.e
  | .f => s.regs.f
  | .h => s.regs.h
  | .l => s.regs.l

/-- Write `self.registers[r] = v`. -/
def setReg (s : Machine) (r : Reg8) (v : Nat) : Machine :=
  match r with
  | .a => { s with regs := { s.regs with a := v } }
  | .b => { s with regs := { s.regs with b := v } }
  | .c => { s with regs := { s.regs with c := v } }
  | .d => { s with regs := { s.regs with d := v } }
  | .e => { s with regs := { s.regs with e := v } }
  | .f => { s with regs := { s.regs with f := v } }
  | .h => { s with regs := { s.regs with h := v } }
  | .l => { s with regs := { s.regs with l := v } }

/-- `GbZ80Cpu._nop`. -/
def nop (s : Machine) : Machine :=
  { s with regs := { s.regs with m := 1 } }

/-- `GbZ80Cpu._halt`: in this source HALT only charges one cycle. -/
def halt (s : Machine) : Machine :=
  { s with regs := { s.regs with m := 1 } }

/-- `GbZ80Cpu._ld_rr`. -/
def ld_rr (s : Machine) (r1 r2 : Reg8) : Machine :=
  let s := setReg s r1 (getReg s r2)
  { s with regs := { s.regs with m := 1 } }

/-- `GbZ80Cpu._ld_rn` (no mask on the PC increment in the source). -/
def ld_rn (s : Machine) (r : Reg8) : Machine :=
  let s := setReg s r (read8 s s.regs.pc)
  { s with regs := { s.regs with pc := s.regs.pc + 1, m := 2 } }

/-- `GbZ80Cpu._ld_r_hlm`. -/
def ld_r_hlm (s : Machine) (r : Reg8) : Machine :=
  let s := setReg s r (read8 s ((s.regs.h <<< 8) + s.regs.l))
  { s with regs := { s.regs with m := 2 } }

/-- `GbZ80Cpu._ld_hlm_r`. -/
def ld_hlm_r (s : Machine) (r : Reg8) : Machine :=
  let s := write8 s ((s.regs.h <<< 8) + s.regs.l) (getReg s r)
  { s with regs := { s.regs with m := 2 } }

/-- `GbZ80Cpu._ld_hlm_n`. -/
def ld_hlm_n (s : Machine) : Machine :=
  let v := read8 s s.regs.pc
  let s := write8 s ((s.regs.h <<< 8) + s.regs.l) v
  { s with regs := { s.regs with pc := s.regs.pc + 1, m := 3 } }

/-- `GbZ80Cpu._ld_r1r2m_a`. -/
def ld_r1r2m_a (s : Machine) (r1 r2 : Reg8) : Machine :=
  let s := write8 s ((getReg s r1 <<< 8) + getReg s r2) s.regs.a
  { s with regs := { s.regs with m := 2 } }

/-- `GbZ80Cpu._ld_nn_a`. -/
def ld_nn_a (s : Machine) : Machine :=
  let addr := read16 s s.regs.pc
  let s := write8 s addr s.regs.a
  { s with regs := { s.regs with pc := s.regs.pc + 2, m := 4 } }

/-- `GbZ80Cpu._ld_a_r1r2m`. -/
def ld_a_r1r2m (s : Machine) (r1 r2 : Reg8) : Machine :=
  let v := read8 s ((getReg s r1 <<< 8) + getReg s r2)
  { s with regs := { s.regs with a := v, m := 2 } }

/-- `GbZ80Cpu._ld_a_nn`. -/
def ld_a_nn (s : Machine) : Machine :=
  let v := read8 s (read16 s s.regs.pc)
  { s with regs := { s.regs with a := v, pc := s.regs.pc + 2, m := 4 } }

/-- `GbZ80Cpu._ld_r1r2_nn`: low byte into `r2`, high byte into `r1`. -/
def ld_r1r2_nn (s : Machine) (r1 r2 : Reg8) : Machine :=
  let s := setReg s r2 (read8 s s.regs.pc)
  let s := setReg s r1 (read8 s (s.regs.pc + 1))
  { s with regs := { s.regs with pc := s.regs.pc + 2, m := 3 } }

/-- `GbZ80Cpu._ld_sp_nn`. -/
def ld_sp_nn (s : Machine) : Machine :=
  { s with regs := { s.regs with sp := read16 s s.regs.pc, pc := s.regs.pc + 2, m := 3 } }

/-- `GbZ80Cpu._ld_nn_sp`. -/
def ld_nn_sp (s : Machine) : Machine :=
  let addr := read16 s s.regs.pc
  let s := write16 s addr s.regs.sp
  { s with regs := { s.regs with pc := s.regs.pc + 2, m := 4 } }

/-- `GbZ80Cpu._inc_r_r` (with the `m` keyword argument). -/
def inc_r_r (s : Machine) (r1 r2 : Reg8) (mArg : Nat) : Machine :=
  let s := setReg s r2 ((getReg s r2 + 1) &&& 255)
  let s := if getReg s r2 = 0 then setReg s r1 ((getReg s r1 + 1) &&& 255) else s
  { s with regs := { s.regs with m := mArg } }

/-- `GbZ80Cpu._dec_r_r` (with the `m` keyword argument). -/
def dec_r_r (s : Machine) (r1 r2 : Reg8) (mArg : Nat) : Machine :=
  let s := setReg s r2 (dec8 (getReg s r2))
  let s := if getReg s r2 = 0xFF then setReg s r1 (dec8 (getReg s r1)) else s
  { s with regs := { s.regs with m := mArg } }

/-- `GbZ80Cpu._ld_hlmi_a`. -/
def ld_hlmi_a (s : Machine) : Machine :=
  let s := write8 s ((s.regs.h <<< 8) + s.regs.l) s.regs.a
  inc_r_r s .h .l 2

/-- `GbZ80Cpu._ld_hlmd_a`. -/
def ld_hlmd_a (s : Machine) : Machine :=
  let s := write8 s ((s.regs.h <<< 8) + s.regs.l) s.regs.a
  dec_r_r s .h .l 2

/-- `GbZ80Cpu._ld_a_hl_i`. -/
def ld_a_hl_i (s : Machine) : Machine :=
  let v := read8 s ((s.regs.h <<< 8) + s.regs.l)
  let s : Machine := { s with regs := { s.regs with a := v } }
  inc_r_r s .h .l 2

/-- `GbZ80Cpu._ld_a_hl_d`. -/
def ld_a_hl_d (s : Machine) : Machine :=
  let v := read8 s ((s.regs.h <<< 8) + s.regs.l)
  let s : Machine := { s with regs := { s.regs with a := v } }
  dec_r_r s .h .l 2

/-- `GbZ80Cpu._ldh_a_n`. -/
def ldh_a_n (s : Machine) : Machine :=
  let n := read8 s s.regs.pc
  let v := read8 s (0xFF00 + n)
  { s with regs := { s.regs with a := v, pc := s.regs.pc + 1, m := 3 } }

/-- `GbZ80Cpu._ldh_n_a`. -/
def ldh_n_a (s : Machine) : Machine :=
  let n := read8 s s.regs.pc
  let s := write8 s (0xFF00 + n) s.regs.a
  { s with regs := { s.regs with pc := s.regs.pc + 1, m := 3 } }

/-- `GbZ80Cpu._ld_a_c`. -/
def ld_a_c (s : Machine) : Machine :=
  let v := read8 s (0xFF00 + s.regs.c)
  { s with regs := { s.regs with a := v, m := 2 } }

/-- `GbZ80Cpu._ld_c_a`. -/
def ld_c_a (s : Machine) : Machine :=
  let s := write8 s (0xFF00 + s.regs.c) s.regs.a
  { s with regs := { s.regs with m := 2 } }

/-- `GbZ80Cpu._ld_hl_sp_n`: signed immediate; `n & 0xF` and `n & 0xFF` on a
negative Python int are its low bits, i.e. `emod`. -/
def ld_hl_sp_n (s : Machine) : Machine :=
  let n := read8 s s.regs.pc
  let nS : Int := if 127 < n then (n : Int) - 256 else (n : Int)
  let pc1 := s.regs.pc + 1
  let result := (((s.regs.sp : Int) + nS).emod 65536).toNat
  let fl : Nat := 0
  let fl := if 0xF < (s.regs.sp &&& 0xF) + (nS.emod 16).toNat then fl ||| 0x20 else fl
  let fl := if 0xFF < (s.regs.sp &&& 0xFF) + (nS.emod 256).toNat then fl ||| 0x10 else fl
  { s with regs := { s.regs with f := fl, h := (result >>> 8) &&& 0xFF, l := result &&& 0xFF, pc := pc1, m := 3 } }

/-- `GbZ80Cpu._ld_sp_hl`. -/
def ld_sp_hl (s : Machine) : Machine :=
  { s with regs := { s.regs with sp := (s.regs.h <<< 8) + s.regs.l, m := 2 } }

/-- `GbZ80Cpu._jp_nn`. -/
def jp_nn (s : Machine) : Machine :=
  { s with regs := { s.regs with pc := read16 s s.regs.pc, m := 3 } }

/-- `GbZ80Cpu._jp_cc_nn`. -/
def jp_cc_nn (s : Machine) (andVal flagCheckValue : Nat) : Machine :=
  if s.regs.f &&& andVal = flagCheckValue then
    { s with regs := { s.regs with pc := read16 s s.regs.pc, m := 4 } }
  else
    { s with regs := { s.regs with pc := s.regs.pc + 2, m := 3 } }

/-- `GbZ80Cpu._jr_n`: signed displacement; the sum can be negative in Python
for tiny PC values, which is outside the modelled envelope (`Int.toNat`). -/
def jr_n (s : Machine) : Machine :=
  let i := read8 s s.regs.pc
  let iS : Int := if i < 128 then (i : Int) else (i : Int) - 256
  let pcNew := (((s.regs.pc : Int) + 1 + iS).toNat)
  { s with regs := { s.regs with pc := pcNew, m := 3 } }

/-- `GbZ80Cpu._jr_cc_n`.  Note the source's sign fix-up
`i = -(~i + 1) & 255` is the identity on 0..255 (unary minus binds tighter
than `&`), so the displacement is effectively unsigned here. -/
def jr_cc_n (s : Machine) (andVal flagCheckValue : Nat) : Machine :=
  let i := read8 s s.regs.pc
  let i := if 127 < i then i &&& 255 else i
  let s : Machine := { s with regs := { s.regs with pc := s.regs.pc + 1, m := 2 } }
  if s.regs.f &&& andVal = flagCheckValue then
    { s with regs := { s.regs with pc := s.regs.pc + i, m := 3 } }
  else s

/-- `GbZ80Cpu._djnz_n` (its sign fix-up is the correct one). -/
def djnz_n (s : Machine) : Machine :=
  let s : Machine := { s with regs := { s.regs with b := dec8 s.regs.b } }
  if s.regs.b ≠ 0 then
    let n := read8 s s.regs.pc
    let nS : Int := if 127 < n then (n : Int) - 256 else (n : Int)
    let pcNew := ((((s.regs.pc : Int) + nS + 1).emod 65536).toNat)
    { s with regs := { s.regs with pc := pcNew, m := 3 } }
  else
    { s with regs := { s.regs with pc := (s.regs.pc + 1) &&& 0xFFFF, m := 2 } }

/-- `GbZ80Cpu._di`. -/
def di (s : Machine) : Machine :=
  { s with regs := { s.regs with ime := 0, m := 1 } }

/-- `GbZ80Cpu._ei`: sets IME at once; the source has no one-instruction
deferral. -/
def ei (s : Machine) : Machine :=
  { s with regs := { s.regs with ime := 1, m := 1 } }

/-- `GbZ80Cpu._push_nn`. -/
def push_nn (s : Machine) (r1 r2 : Reg8) : Machine :=
  let s : Machine := { s with regs := { s.regs with sp := s.regs.sp - 1 } }
  let s := write8 s s.regs.sp (getReg s r1)
  let s : Machine := { s with regs := { s.regs with sp := s.regs.sp - 1 } }
  let s := write8 s s.regs.sp (getReg s r2)
  { s with regs := { s.regs with m := 3 } }

/-- `GbZ80Cpu._pop_nn`: note no mask is applied, so POP AF copies the raw
stack byte into F. -/
def pop_nn (s : Machine) (r1 r2 : Reg8) : Machine :=
  let s := setReg s r2 (read8 s s.regs.sp)
  let s : Machine := { s with regs := { s.regs with sp := s.regs.sp + 1 } }
  let s := setReg s r1 (read8 s s.regs.sp)
  let s : Machine := { s with regs := { s.regs with sp := s.regs.sp + 1 } }
  { s with regs := { s.regs with m := 3 } }

/-- `GbZ80Cpu._call_nn`. -/
def call_nn (s : Machine) : Machine :=
  let s : Machine := { s with regs := { s.regs with sp := s.regs.sp - 2 } }
  let s := write16 s s.regs.sp (s.regs.pc + 2)
  { s with regs := { s.regs with pc := read16 s s.regs.pc, m := 5 } }

/-- `GbZ80Cpu._sub_n`. -/
def sub_n (s : Machine) (r : Reg8) : Machine :=
  let a := s.regs.a
  let val := getReg s r
  let fl := 0x40
  let fl := if (((a : Int) - val).emod 256) = 0 then fl ||| 0x80 else fl
  let fl := if a &&& 0xF < val &&& 0xF then fl ||| 0x20 else fl
  let fl := if a < val then fl ||| 0x10 else fl
  let aNew := (((a : Int) - val).emod 256).toNat
  { s with regs := { s.regs with f := fl, a := aNew, m := 1 } }

/-- `GbZ80Cpu._sub_a_n` (SBC): flags computed as in the source, including the
quirky half-carry test on bit 4 of `a ^ registers[n] ^ old_a` evaluated after
the write-back of A. -/
def sub_a_n (s : Machine) (n : Reg8) : Machine :=
  let aOld := s.regs.a
  let a1 : Int := (aOld : Int) - getReg s n -
    (if s.regs.f &&& 0x10 ≠ 0 then 1 else 0)
  let fl := if a1 < 0 then 0x50 else 0x40
  let s' : Machine := { s with regs := { s.regs with a := (a1.emod 256).toNat } }
  let fl := if s'.regs.a = 0 then fl ||| 0x80 else fl
  let fl := if (s'.regs.a ^^^ getReg s' n ^^^ aOld) &&& 0x10 ≠ 0 then fl ||| 0x20 else fl
  { s' with regs := { s'.regs with f := fl, m := 1 } }

/-- `GbZ80Cpu._sub_hl`. -/
def sub_hl (s : Machine) : Machine :=
  let v := read8 s ((s.regs.h <<< 8) ||| s.regs.l)
  let a := s.regs.a
  let fl := 0x40
  let fl := if (((a : Int) - v).emod 256) = 0 then fl ||| 0x80 else fl
  let fl := if a &&& 0xF < v &&& 0xF then fl ||| 0x20 else fl
  let fl := if a < v then fl ||| 0x10 else fl
  let aNew := (((a : Int) - v).emod 256).toNat
  { s with regs := { s.regs with f := fl, a := aNew, m := 2 } }

/-- Source of the operand of `GbZ80Cpu._cp_n`: a register name or the
string `'pc'` selecting the immediate byte. -/
inductive CpSrc where
  | reg (r : Reg8)
  | imm
deriving DecidableEq, Repr

/-- `GbZ80Cpu._cp_n`. -/
def cp_n (s : Machine) (src : CpSrc) : Machine :=
  let pair : Nat × Machine :=
    match src with
    | .imm => (read8 s s.regs.pc,
        ({ s with regs := { s.regs with pc := s.regs.pc + 1 } } : Machine))
    | .reg r => (getReg s r, s)
  let v := pair.1
  let s := pair.2
  let a := s.regs.a
  let fl := 0x40
  let fl := if (((a : Int) - v).emod 256) = 0 then fl ||| 0x80 else fl
  let fl := if a &&& 0xF < v &&& 0xF then fl ||| 0x20 else fl
  let fl := if a < v then fl ||| 0x10 else fl
  { s with regs := { s.regs with f := fl, m := 2 } }

/-- `GbZ80Cpu._add_a_n`. -/
def add_a_n (s : Machine) (n : Reg8) : Machine :=
  let v := getReg s n
  let result := s.regs.a + v
  let fl := 0
  let fl := if result &&& 0xFF = 0 then fl ||| 0x80 else fl
  let fl := if 0xF < (s.regs.a &&& 0xF) + (v &&& 0xF) then fl ||| 0x20 else fl
  let fl := if 0xFF < result then fl ||| 0x10 else fl
  { s with regs := { s.regs with f := fl, a := result &&& 0xFF, m := 1 } }

/-- `GbZ80Cpu._add_sp_n`. -/
def add_sp_n (s : Machine) : Machine :=
  let n := read8 s s.regs.pc
  let pc1 := s.regs.pc + 1
  let nS : Int := if 127 < n then (n : Int) - 256 else (n : Int)
  let result := (((s.regs.sp : Int) + nS).emod 65536).toNat
  let fl : Nat := 0
  let fl := if 0xF < (s.regs.sp &&& 0xF) + (nS.emod 16).toNat then fl ||| 0x20 else fl
  let fl := if 0xFF < (s.regs.sp &&& 0xFF) + (nS.emod 256).toNat then fl ||| 0x10 else fl
  { s with regs := { s.regs with f := fl, sp := result, pc := pc1, m := 4 } }

/-- `GbZ80Cpu._add_hl_n`. -/
def add_hl_n (s : Machine) (r1 r2 : Reg8) : Machine :=
  let hl := (s.regs.h <<< 8) + s.regs.l
  let v := (getReg s r1 <<< 8) + getReg s r2
  let result := hl + v
  let fl := pyAndNot s.regs.f 0x40
  let fl := if 0x0FFF < (hl &&& 0x0FFF) + (v &&& 0x0FFF) then fl ||| 0x20
    else pyAndNot fl 0x20
  let fl := if 0xFFFF < result then fl ||| 0x10 else pyAndNot fl 0x10
  { s with regs := { s.regs with f := fl, h := (result >>> 8) &&& 0xFF, l := result &&& 0xFF, m := 2 } }

/-- `GbZ80Cpu._add_hl_sp`: the source handler is truncated; it updates only
the N and H flags (the carry branch body is a bare `self` expression and HL
and `m` are never written). -/
def add_hl_sp (s : Machine) : Machine :=
  let hl := (s.regs.h <<< 8) + s.regs.l
  let sp := s.regs.sp
  let fl := pyAndNot s.regs.f 0x40
  let fl := if 0x0FFF < (hl &&& 0x0FFF) + (sp &&& 0x0FFF) then fl ||| 0x20
    else pyAndNot fl 0x20
  { s with regs := { s.regs with f := fl } }

/-- `GbZ80Cpu._adc_a_n`. -/
def adc_a_n (s : Machine) (n : Reg8) : Machine :=
  let carry := if s.regs.f &&& 0x10 ≠ 0 then 1 else 0
  let v := getReg s n
  let result := s.regs.a + v + carry
  let fl := 0
  let fl := if result &&& 0xFF = 0 then fl ||| 0x80 else fl
  let fl := if 0xF < (s.regs.a &&& 0xF) + (v &&& 0xF) + carry then fl ||| 0x20 else fl
  let fl := if 0xFF < result then fl ||| 0x10 else fl
  { s with regs := { s.regs with f := fl, a := result &&& 0xFF, m := 1 } }

/-- `GbZ80Cpu._adc_n` (this handler masks its PC increment). -/
def adc_n (s : Machine) : Machine :=
  let carry := if s.regs.f &&& 0x10 ≠ 0 then 1 else 0
  let v := read8 s s.regs.pc
  let pc1 := (s.regs.pc + 1) &&& 0xFFFF
  let result := s.regs.a + v + carry
  let fl := 0
  let fl := if result &&& 0xFF = 0 then fl ||| 0x80 else fl
  let fl := if 0xF < (s.regs.a &&& 0xF) + (v &&& 0xF) + carry then fl ||| 0x20 else fl
  let fl := if 0xFF < result then fl ||| 0x10 else fl
  { s with regs := { s.regs with f := fl, a := result &&& 0xFF, pc := pc1, m := 2 } }

/-- `GbZ80Cpu._adc_hl`. -/
def adc_hl (s : Machine) : Machine :=
  let carry := if s.regs.f &&& 0x10 ≠ 0 then 1 else 0
  let v := read8 s ((s.regs.h <<< 8) ||| s.regs.l)
  let result := s.regs.a + v + carry
  let fl := 0
  let fl := if result &&& 0xFF = 0 then fl ||| 0x80 else fl
  let fl := if 0xF < (s.regs.a &&& 0xF) + (v &&& 0xF) + carry then fl ||| 0x20 else fl
  let fl := if 0xFF < result then fl ||| 0x10 else fl
  { s with regs := { s.regs with f := fl, a := result &&& 0xFF, m := 2 } }

/-- `GbZ80Cpu._dec_r`: the source rebuilds F from scratch (N, Z, H), so the
carry flag is destroyed. -/
def dec_r (s : Machine) (r : Reg8) : Machine :=
  let old := getReg s r
  let s := setReg s r (dec8 old)
  let fl := 0x40
  let fl := if getReg s r = 0 then fl ||| 0x80 else fl
  let fl := if old &&& 0xF = 0 then fl ||| 0x20 else fl
  { s with regs := { s.regs with f := fl, m := 1 } }

/-- `GbZ80Cpu._inc_r`: the source rebuilds F from scratch (Z, H), so the
carry flag is destroyed. -/
def inc_r (s : Machine) (r : Reg8) : Machine :=
  let old := getReg s r
  let s := setReg s r ((old + 1) &&& 0xFF)
  let fl := 0
  let fl := if getReg s r = 0 then fl ||| 0x80 else fl
  let fl := if old &&& 0xF = 0xF then fl ||| 0x20 else fl
  { s with regs := { s.regs with f := fl, m := 1 } }

/-- `GbZ80Cpu._inc_sp`. -/
def inc_sp (s : Machine) : Machine :=
  { s with regs := { s.regs with sp := (s.regs.sp + 1) &&& 65535, m := 1 } }

/-- `GbZ80Cpu._dec_sp`. -/
def dec_sp (s : Machine) : Machine :=
  { s with regs := { s.regs with sp := (s.regs.sp + 65535) &&& 65535, m := 1 } }

/-- `GbZ80Cpu._swap_n`. -/
def swap_n (s : Machine) (n : Reg8) : Machine :=
  let tr := getReg s n
  let result := ((tr &&& 0xF) <<< 4) ||| ((tr &&& 0xF0) >>> 4)
  let s := setReg s n result
  let fl := if result = 0 then 0x80 else 0
  { s with regs := { s.regs with f := fl, m := 2 } }

/-- Source of the operand of `GbZ80Cpu._and_n`: register, the `'pc'`
immediate, or the `'hl'` memory operand. -/
inductive AndSrc where
  | reg (r : Reg8)
  | imm
  | hlm
deriving DecidableEq, Repr

/-- `GbZ80Cpu._and_n`. -/
def and_n (s : Machine) (src : AndSrc) : Machine :=
  let triple : Nat × Machine :=
    match src with
    | .imm => (read8 s s.regs.pc,
        ({ s with regs := { s.regs with pc := s.regs.pc + 1, m := 2 } } : Machine))
    | .hlm => (read8 s ((s.regs.h <<< 8) + s.regs.l),
        ({ s with regs := { s.regs with m := 2 } } : Machine))
    | .reg r => (getReg s r, ({ s with regs := { s.regs with m := 1 } } : Machine))
  let v := triple.1
  let s := triple.2
  let aNew := (s.regs.a &&& v) &&& 0xFF
  let fl := 0x20
  let fl := if aNew = 0 then fl ||| 0x80 else fl
  { s with regs := { s.regs with a := aNew, f := fl } }

/-- `GbZ80Cpu._or_n`. -/
def or_n (s : Machine) (n : Reg8) : Machine :=
  let aNew := (s.regs.a ||| getReg s n) &&& 0xFF
  let fl := if aNew = 0 then 0x80 else 0
  { s with regs := { s.regs with a := aNew, f := fl, m := 1 } }

/-- `GbZ80Cpu._xor_a_n`. -/
def xor_a_n (s : Machine) (n : Reg8) : Machine :=
  let aNew := (s.regs.a ^^^ getReg s n) &&& 0xFF
  let fl := if aNew = 0 then 0x80 else 0
  { s with regs := { s.regs with a := aNew, f := fl, m := 1 } }

/-- `GbZ80Cpu._xor_n`. -/
def xor_n (s : Machine) : Machine :=
  let v := read8 s s.regs.pc
  let aNew := (s.regs.a ^^^ v) &&& 0xFF
  let fl := if aNew = 0 then 0x80 else 0
  { s with regs := { s.regs with a := aNew, f := fl, pc := s.regs.pc + 1, m := 2 } }

/-- `GbZ80Cpu._xor_hl`. -/
def xor_hl (s : Machine) : Machine :=
  let v := read8 s ((s.regs.h <<< 8) + s.regs.l)
  let aNew := (s.regs.a ^^^ v) &&& 0xFF
  let fl := if aNew = 0 then 0x80 else 0
  { s with regs := { s.regs with a := aNew, f := fl, m := 2 } }

/-- `GbZ80Cpu._ret`. -/
def ret (s : Machine) : Machine :=
  { s with regs := { s.regs with pc := read16 s s.regs.sp, sp := s.regs.sp + 2, m := 3 } }

/-- `GbZ80Cpu._rsv`: snapshot the eight registers into `rsv`. -/
def rsvSave (s : Machine) : Machine :=
  { s with rsv := { a := s.regs.a, b := s.regs.b, c := s.regs.c, d := s.regs.d, e := s.regs.e, f := s.regs.f, h := s.regs.h, l := s.regs.l } }

/-- `GbZ80Cpu._rrs`: restore the eight registers from `rsv`. -/
def rrs (s : Machine) : Machine :=
  { s with regs := { s.regs with a := s.rsv.a, b := s.rsv.b, c := s.rsv.c, d := s.rsv.d, e := s.rsv.e, f := s.rsv.f, h := s.rsv.h, l := s.rsv.l } }

/-- `GbZ80Cpu._rst_n`: saves the register file into `rsv`, pushes PC and
jumps to the restart vector. -/
def rst_n (s : Machine) (n : Nat) : Machine :=
  let s := rsvSave s
  let s : Machine := { s with regs := { s.regs with sp := s.regs.sp - 2 } }
  let s := write16 s s.regs.sp s.regs.pc
  { s with regs := { s.regs with pc := n, m := 3 } }

/-- `GbZ80Cpu._reti`: sets IME, overwrites the register file from `rsv`, and
pops PC. -/
def reti (s : Machine) : Machine :=
  let s : Machine := { s with regs := { s.regs with ime := 1 } }
  let s := rrs s
  { s with regs := { s.regs with pc := read16 s s.regs.sp, sp := s.regs.sp + 2, m := 3 } }

/-- `GbZ80Cpu._ret_f`. -/
def ret_f (s : Machine) (andVal flagCheckValue : Nat) : Machine :=
  if s.regs.f &&& andVal = flagCheckValue then
    { s with regs := { s.regs with pc := read16 s s.regs.sp, sp := s.regs.sp + 2, m := 3 } }
  else
    { s with regs := { s.regs with m := 1 } }

/-- `GbZ80Cpu.cpl`: `(~a) & 0xFF` equals `255 - (a & 0xFF)`. -/
def cpl (s : Machine) : Machine :=
  let aNew := 255 - (s.regs.a &&& 0xFF)
  let fl := (s.regs.f &&& 0x80) ||| 0x60
  { s with regs := { s.regs with a := aNew, f := fl, m := 1 } }

/-- `GbZ80Cpu._ccf`. -/
def ccf (s : Machine) : Machine :=
  let f1 := if s.regs.f &&& 0x10 ≠ 0 then pyAndNot s.regs.f 0x10 else s.regs.f ||| 0x10
  { s with regs := { s.regs with f := f1 &&& 0x90, m := 1 } }

/-- `GbZ80Cpu._scf`. -/
def scf (s : Machine) : Machine :=
  { s with regs := { s.regs with f := s.regs.f ||| 0x10, m := 1 } }

/-- `GbZ80Cpu._rlc_n` (CB-prefixed RLC r): carry taken from bit 0x80. -/
def rlc_n (s : Machine) (n : Reg8) : Machine :=
  let v := getReg s n
  let ci := if v &&& 0x80 ≠ 0 then 1 else 0
  let co := if v &&& 0x80 ≠ 0 then 0x10 else 0
  let s := setReg s n (((v <<< 1) + ci) &&& 255)
  let f0 := if getReg s n ≠ 0 then 0 else 0x80
  { s with regs := { s.regs with f := (f0 &&& 0xEF) + co, m := 2 } }

/-- `GbZ80Cpu._rlc_a` (RLCA): keeps the other flag bits (masked by 0xEF). -/
def rlc_a (s : Machine) : Machine :=
  let ci := if s.regs.a &&& 0x80 ≠ 0 then 1 else 0
  let co := if s.regs.a &&& 0x80 ≠ 0 then 0x10 else 0
  let aNew := ((s.regs.a <<< 1) + ci) &&& 255
  { s with regs := { s.regs with a := aNew, f := (s.regs.f &&& 0xEF) + co, m := 1 } }

/-- `GbZ80Cpu._rrca`. -/
def rrca (s : Machine) : Machine :=
  let carry := s.regs.a &&& 0x01
  let aNew := (s.regs.a >>> 1) ||| (carry <<< 7)
  let fl := if carry ≠ 0 then 0x10 else 0
  { s with regs := { s.regs with a := aNew, f := fl, m := 1 } }

/-- The exception kinds the source can raise during a step:
`opcodeUnimplemented` is the constant `Exception("Opcode unimplemented!")`
raised by `_raise_opcode_unimplemented` (also reached from the CB table);
`typeError` is the argument-unpacking failure of opcode 0xEF, whose table
entry `(0x28)` is an int rather than a tuple; `keyError` is a dispatch-table
lookup miss (unreachable for byte-valued opcodes); `sysExit` is the debug
stuck-check in `execute_next_operation`. -/
inductive EmuError where
  | opcodeUnimplemented
  | typeError
  | keyError
  | sysExit
deriving DecidableEq, Repr

inductive StepOut where
  | ok (s : Machine)
  | err (e : EmuError) (s : Machine)

/-- The state carried by a `StepOut`. -/
def StepOut.state : StepOut -> Machine
  | .ok s => s
  | .err _ s => s

/-- Whether the step raised. -/
def StepOut.isOk : StepOut -> Bool
  | .ok _ => true
  | .err _ _ => false

/-- The `cb_map` table of `GbZ80Cpu`: only RLC r and SWAP r are implemented;
every other slot maps to `_raise_cb_op_unimplemented`, which raises the same
constant `Exception("Opcode unimplemented!")`.  Indices above 255 cannot occur
in the source (bytes); they would be a `KeyError`. -/
def cbOp (s : Machine) (i : Nat) : StepOut :=
  if 255 < i then .err .keyError s
  else match i with
  | 0 => .ok (rlc_n s .b)
  | 1 => .ok (rlc_n s .c)
  | 2 => .ok (rlc_n s .d)
  | 3 => .ok (rlc_n s .e)
  | 4 => .ok (rlc_n s .h)
  | 5 => .ok (rlc_n s .l)
  | 7 => .ok (rlc_n s .a)
  | 48 => .ok (swap_n s .b)
  | 49 => .ok (swap_n s .c)
  | 50 => .ok (swap_n s .d)
  | 51 => .ok (swap_n s .e)
  | 52 => .ok (swap_n s .h)
  | 53 => .ok (swap_n s .l)
  | 55 => .ok (swap_n s .a)
  | _ => .err .opcodeUnimplemented s

/-- `GbZ80Cpu._call_cb_op`. -/
def callCbOp (s : Machine) : StepOut :=
  let i := read8 s s.regs.pc
  let s : Machine := { s with regs := { s.regs with pc := (s.regs.pc + 1) &&& 65535 } }
  cbOp s i

set_option maxHeartbeats 2000000 in
/-- Dispatch of `self.opcode_map[op]` followed by `opcode(*args)`
(src/cpu.py).  Each arm is the table entry for that opcode number; opcode
numbers above 255 cannot occur in the source (bytes) and would be a
`KeyError`. -/
def execOp (s : Machine) (op : Nat) : StepOut :=
  match op with
  | 0 => .ok (nop s) -- NOP
  | 1 => .ok (ld_r1r2_nn s .b .c) -- LDBCnn
  | 2 => .ok (ld_r1r2m_a s .b .c) -- LDBCmA
  | 3 => .ok (inc_r_r s .b .c 1) -- INCBC
  | 4 => .ok (inc_r s .b) -- INCr_b
  | 5 => .ok (dec_r s .b) -- DECr_b
  | 6 => .ok (ld_rn s .b) -- LDrn_b
  | 7 => .ok (rlc_a s) -- RLCA
  | 8 => .ok (ld_nn_sp s) -- LDnnSP
  | 9 => .ok (add_hl_n s .b .c) -- ADDHLBC
  | 10 => .ok (ld_a_r1r2m s .b .c) -- LDABCm
  | 11 => .ok (dec_r_r s .b .c 1) -- DECBC
  | 12 => .ok (inc_r s .c) -- INCr_c
  | 13 => .ok (dec_r s .c) -- DECr_c
  | 14 => .ok (ld_rn s .c) -- LDrn_c
  | 15 => .ok (rrca s) -- RRCA
  | 16 => .ok (djnz_n s) -- DJNZn
  | 17 => .ok (ld_r1r2_nn s .d .e) -- LDDEnn
  | 18 => .ok (ld_r1r2m_a s .d .e) -- LDDEmA
  | 19 => .ok (inc_r_r s .d .e 1) -- INCDE
  | 20 => .ok (inc_r s .d) -- INCr_d
  | 21 => .ok (dec_r s .d) -- DECr_d
  | 22 => .ok (ld_rn s .d) -- LDrn_d
  | 23 => .err .opcodeUnimplemented s -- RLA
  | 24 => .ok (jr_n s) -- JRn
  | 25 => .ok (add_hl_n s .d .e) -- ADDHLDE
  | 26 => .ok (ld_a_r1r2m s .d .e) -- LDADEm
  | 27 => .ok (dec_r_r s .d .e 1) -- DECDE
  | 28 => .ok (inc_r s .e) -- INCr_e
  | 29 => .ok (dec_r s .e) -- DECr_e
  | 30 => .ok (ld_rn s .e) -- LDrn_e
  | 31 => .err .opcodeUnimplemented s -- RRA
  | 32 => .ok (jr_cc_n s 0x80 0x00) -- JRNZn
  | 33 => .ok (ld_r1r2_nn s .h .l) -- LDHLnn
  | 34 => .ok (ld_hlmi_a s) -- LDHLIA
  | 35 => .ok (inc_r_r s .h .l 1) -- INCHL
  | 36 => .ok (inc_r s .h) -- INCr_h
  | 37 => .ok (dec_r s .h) -- DECr_h
  | 38 => .ok (ld_rn s .h) -- LDrn_h
  | 39 => .ok (nop s) -- XX
  | 40 => .ok (jr_cc_n s 0x80 0x80) -- JRZn
  | 41 => .ok (add_hl_n s .h .l) -- ADDHLHL
  | 42 => .ok (ld_a_hl_i s) -- LDAHLI
  | 43 => .ok (dec_r_r s .h .l 1) -- DECHL
  | 44 => .ok (inc_r s .l) -- INCr_l
  | 45 => .ok (dec_r s .l) -- DECr_l
  | 46 => .ok (ld_rn s .l) -- LDrn_l
  | 47 => .ok (cpl s) -- CPL
  | 48 => .ok (jr_cc_n s 0x10 0x00) -- JRNCn
  | 49 => .ok (ld_sp_nn s) -- LD SP nn
  | 50 => .ok (ld_hlmd_a s) -- LDHLDA
  | 51 => .ok (inc_sp s) -- INC SP
  | 52 => .err .opcodeUnimplemented s -- INCHLm
  | 53 => .err .opcodeUnimplemented s -- DECHLm
  | 54 => .ok (ld_hlm_n s) -- LDHLmn
  | 55 => .ok (scf s) -- SCF
  | 56 => .ok (jr_cc_n s 0x10 0x10) -- JRCn
  | 57 => .ok (add_hl_sp s) -- ADDHLSP
  | 58 => .ok (ld_a_hl_d s) -- LDAHLD
  | 59 => .ok (dec_sp s) -- DECSP
  | 60 => .ok (inc_r s .a) -- INCr_a
  | 61 => .ok (dec_r s .a) -- DECr_a
  | 62 => .ok (ld_rn s .a) -- LDrn_a
  | 63 => .ok (ccf s) -- CCF
  | 64 => .ok (ld_rr s .b .b) -- LDrr_bb (nop?)
  | 65 => .ok (ld_rr s .b .c) -- LDrr_bc
  | 66 => .ok (ld_rr s .b .d) -- LDrr_bd
  | 67 => .ok (ld_rr s .b .e) -- LDrr_be
  | 68 => .ok (ld_rr s .b .h) -- LDrr_bh
  | 69 => .ok (ld_rr s .b .l) -- LDrr_bl
  | 70 => .ok (ld_r_hlm s .b) -- LDrHLm_b
  | 71 => .ok (ld_rr s .b .a) -- LDrr_ba
  | 72 => .ok (ld_rr s .c .b) -- LDrr_cb
  | 73 => .ok (ld_rr s .c .c) -- LDrr_cc (nop?)
  | 74 => .ok (ld_rr s .c .d) -- LDrr_cd
  | 75 => .ok (ld_rr s .c .e) -- LDrr_ce
  | 76 => .ok (ld_rr s .c .h) -- LDrr_ch
  | 77 => .ok (ld_rr s .c .l) -- LDrr_cl
  | 78 => .ok (ld_r_hlm s .c) -- LDrHLm_c
  | 79 => .ok (ld_rr s .c .a) -- LDrr_ca
  | 80 => .ok (ld_rr s .d .b) -- LDrr_db
  | 81 => .ok (ld_rr s .d .c) -- LDrr_dc
  | 82 => .ok (ld_rr s .d .d) -- LDrr_dd (nop?)
  | 83 => .ok (ld_rr s .d .e) -- LDrr_de
  | 84 => .ok (ld_rr s .d .h) -- LDrr_dh
  | 85 => .ok (ld_rr s .d .l) -- LDrr_dl
  | 86 => .ok (ld_r_hlm s .d) -- LDrHLm_d
  | 87 => .ok (ld_rr s .d .a) -- LDrr_da
  | 88 => .ok (ld_rr s .e .b) -- LDrr_eb
  | 89 => .ok (ld_rr s .e .c) -- LDrr_ec
  | 90 => .ok (ld_rr s .e .d) -- LDrr_ed
  | 91 => .ok (ld_rr s .e .e) -- LDrr_ee (nop?)
  | 92 => .ok (ld_rr s .e .h) -- LDrr_eh
  | 93 => .ok (ld_rr s .e .l) -- LDrr_el
  | 94 => .ok (ld_r_hlm s .e) -- LDrHLm_e
  | 95 => .ok (ld_rr s .e .a) -- LDrr_ea
  | 96 => .ok (ld_rr s .h .b) -- LDrr_hb
  | 97 => .ok (ld_rr s .h .c) -- LDrr_hc
  | 98 => .ok (ld_rr s .h .d) -- LDrr_hd
  | 99 => .ok (ld_rr s .h .e) -- LDrr_he
  | 100 => .ok (ld_rr s .h .h) -- LDrr_hh (nop?)
  | 101 => .ok (ld_rr s .h .l) -- LDrr_hl
  | 102 => .ok (ld_r_hlm s .h) -- LDrHLm_h
  | 103 => .ok (ld_rr s .h .a) -- LDrr_ha
  | 104 => .ok (ld_rr s .l .b) -- LDrr_lb
  | 105 => .ok (ld_rr s .l .c) -- LDrr_lc
  | 106 => .ok (ld_rr s .l .d) -- LDrr_ld
  | 107 => .ok (ld_rr s .l .e) -- LDrr_le
  | 108 => .ok (ld_rr s .l .h) -- LDrr_lh
  | 109 => .ok (ld_rr s .l .l) -- LDrr_ll (nop?)
  | 110 => .ok (ld_r_hlm s .l) -- LDrHLm_l
  | 111 => .ok (ld_rr s .l .a) -- LDrr_la
  | 112 => .ok (ld_hlm_r s .b) -- LDHLmr_b
  | 113 => .ok (ld_hlm_r s .c) -- LDHLmr_c
  | 114 => .ok (ld_hlm_r s .d) -- LDHLmr_d
  | 115 => .ok (ld_hlm_r s .e) -- LDHLmr_e
  | 116 => .ok (ld_hlm_r s .h) -- LDHLmr_h
  | 117 => .ok (ld_hlm_r s .l) -- LDHLmr_l
  | 118 => .ok (halt s) -- HALT
  | 119 => .ok (ld_hlm_r s .a) -- LDHLmr_a
  | 120 => .ok (ld_rr s .a .b) -- LDrr_ab
  | 121 => .ok (ld_rr s .a .c) -- LDrr_ac
  | 122 => .ok (ld_rr s .a .d) -- LDrr_ad
  | 123 => .ok (ld_rr s .a .e) -- LDrr_ae
  | 124 => .ok (ld_rr s .a .h) -- LDrr_ah
  | 125 => .ok (ld_rr s .a .l) -- LDrr_al
  | 126 => .ok (ld_r_hlm s .a) -- LDrHLm_a
  | 127 => .ok (ld_rr s .a .a) -- LDrr_aa (nop?)
  | 128 => .ok (add_a_n s .b) -- ADDr_b
  | 129 => .ok (add_a_n s .c) -- ADDr_c
  | 130 => .ok (add_a_n s .d) -- ADDr_d
  | 131 => .ok (add_a_n s .e) -- ADDr_e
  | 132 => .ok (add_a_n s .h) -- ADDr_h
  | 133 => .ok (add_a_n s .l) -- ADDr_l
  | 134 => .err .opcodeUnimplemented s -- ADDHL
  | 135 => .ok (add_a_n s .a) -- ADDr_a
  | 136 => .ok (adc_a_n s .b) -- ADC A, B
  | 137 => .ok (adc_a_n s .c) -- ADC A, C
  | 138 => .ok (adc_a_n s .d) -- ADC A, D
  | 139 => .ok (adc_a_n s .e) -- ADC A, E
  | 140 => .ok (adc_a_n s .h) -- ADC A, H
  | 141 => .ok (adc_a_n s .l) -- ADC A, L
  | 142 => .ok (adc_hl s) -- ADCHL
  | 143 => .ok (adc_a_n s .a) -- ADCr_a
  | 144 => .ok (sub_n s .b) -- SUBr_b
  | 145 => .ok (sub_n s .c) -- SUBr_c
  | 146 => .ok (sub_n s .d) -- SUBr_d
  | 147 => .ok (sub_n s .e) -- SUBr_e
  | 148 => .ok (sub_n s .h) -- SUBr_h
  | 149 => .ok (sub_n s .l) -- SUBr_l
  | 150 => .ok (sub_hl s) -- SUBHL
  | 151 => .ok (sub_n s .a) -- SUBr_a
  | 152 => .ok (sub_a_n s .b) -- SBCr_b
  | 153 => .ok (sub_a_n s .c) -- SBCr_c
  | 154 => .ok (sub_a_n s .d) -- SBCr_d
  | 155 => .ok (sub_a_n s .e) -- SBCr_e
  | 156 => .ok (sub_a_n s .h) -- SBCr_h
  | 157 => .ok (sub_a_n s .l) -- SBCr_l
  | 158 => .err .opcodeUnimplemented s -- SBCHL
  | 159 => .ok (sub_a_n s .a) -- SBCr_a
  | 160 => .ok (and_n s (.reg .b)) -- ANDr_b
  | 161 => .ok (and_n s (.reg .c)) -- ANDr_c
  | 162 => .ok (and_n s (.reg .d)) -- ANDr_d
  | 163 => .ok (and_n s (.reg .e)) -- ANDr_e
  | 164 => .ok (and_n s (.reg .h)) -- ANDr_h
  | 165 => .ok (and_n s (.reg .l)) -- ANDr_l
  | 166 => .ok (and_n s .hlm) -- ANDHL
  | 167 => .ok (and_n s (.reg .a)) -- ANDr_a
  | 168 => .ok (xor_a_n s .b) -- XORr_b
  | 169 => .ok (xor_a_n s .c) -- XORr_c
  | 170 => .ok (xor_a_n s .d) -- XORr_d
  | 171 => .ok (xor_a_n s .e) -- XORr_e
  | 172 => .ok (xor_a_n s .h) -- XORr_h
  | 173 => .ok (xor_a_n s .l) -- XORr_l
  | 174 => .ok (xor_hl s) -- XORHL
  | 175 => .ok (xor_a_n s .a) -- XORr_a
  | 176 => .ok (or_n s .b) -- ORr_b
  | 177 => .ok (or_n s .c) -- ORr_c
  | 178 => .ok (or_n s .d) -- ORr_d
  | 179 => .ok (or_n s .e) -- ORr_e
  | 180 => .ok (or_n s .h) -- ORr_h
  | 181 => .ok (or_n s .l) -- ORr_l
  | 182 => .err .opcodeUnimplemented s -- ORHL
  | 183 => .ok (or_n s .a) -- ORr_a
  | 184 => .ok (cp_n s (.reg .b)) -- CPr_b
  | 185 => .ok (cp_n s (.reg .c)) -- CPr_c
  | 186 => .ok (cp_n s (.reg .d)) -- CPr_d
  | 187 => .ok (cp_n s (.reg .e)) -- CPr_e
  | 188 => .ok (cp_n s (.reg .h)) -- CPr_h
  | 189 => .ok (cp_n s (.reg .l)) -- CPr_l
  | 190 => .err .opcodeUnimplemented s -- CPHL
  | 191 => .ok (cp_n s (.reg .a)) -- CPr_a
  | 192 => .ok (ret_f s 0x80 0x00) -- RETNZ
  | 193 => .ok (pop_nn s .b .c) -- POPBC
  | 194 => .ok (jp_cc_nn s 0x80 0x00) -- JPNZnn
  | 195 => .ok (jp_nn s) -- JPnn
  | 196 => .err .opcodeUnimplemented s -- CALLNZnn
  | 197 => .ok (push_nn s .b .c) -- PUSHBC
  | 198 => .err .opcodeUnimplemented s -- ADDn
  | 199 => .ok (rst_n s 0x00) -- RST00
  | 200 => .ok (ret_f s 0x80 0x80) -- RETZ
  | 201 => .ok (ret s) -- RET
  | 202 => .ok (jp_cc_nn s 0x80 0x80) -- JPZnn
  | 203 => callCbOp s -- MAPcb
  | 204 => .err .opcodeUnimplemented s -- CALLZnn
  | 205 => .ok (call_nn s) -- CALLnn
  | 206 => .ok (adc_n s) -- ADCn
  | 207 => .ok (rst_n s 0x08) -- RST08
  | 208 => .ok (ret_f s 0x10 0x00) -- RETNC
  | 209 => .ok (pop_nn s .d .e) -- POPDE
  | 210 => .ok (jp_cc_nn s 0x10 0x00) -- JPNCnn
  | 211 => .ok (nop s) -- XX
  | 212 => .err .opcodeUnimplemented s -- CALLNCnn
  | 213 => .ok (push_nn s .d .e) -- PUSHDE
  | 214 => .err .opcodeUnimplemented s -- SUBn
  | 215 => .ok (rst_n s 0x10) -- RST10
  | 216 => .ok (ret_f s 0x10 0x10) -- RETC
  | 217 => .ok (reti s) -- RETI
  | 218 => .ok (jp_cc_nn s 0x10 0x10) -- JPCnn
  | 219 => .ok (nop s) -- XX
  | 220 => .err .opcodeUnimplemented s -- CALLCnn
  | 221 => .ok (nop s) -- XX
  | 222 => .err .opcodeUnimplemented s -- SBCn
  | 223 => .ok (rst_n s 0x18) -- RST18
  | 224 => .ok (ldh_n_a s) -- LDIOnA
  | 225 => .ok (pop_nn s .h .l) -- POPHL
  | 226 => .ok (ld_c_a s) -- LDIOCA
  | 227 => .ok (nop s) -- XX
  | 228 => .ok (nop s) -- XX
  | 229 => .ok (push_nn s .h .l) -- PUSHHL
  | 230 => .ok (and_n s .imm) -- ANDn
  | 231 => .ok (rst_n s 0x20) -- RST20
  | 232 => .ok (add_sp_n s) -- ADDSPn
  | 233 => .err .opcodeUnimplemented s -- JPHL
  | 234 => .ok (ld_nn_a s) -- LD nn A
  | 235 => .ok (nop s) -- XX
  | 236 => .ok (nop s) -- XX
  | 237 => .ok (nop s) -- XX
  | 238 => .err .opcodeUnimplemented s -- ORn
  | 239 => .err .typeError s -- RST28 -- args `(0x28)` is an int, not a tuple: `opcode(*args)` raises TypeError
  | 240 => .ok (ldh_a_n s) -- LD AIO n
  | 241 => .ok (pop_nn s .a .f) -- POPAF
  | 242 => .ok (ld_a_c s) -- LDAIOC
  | 243 => .ok (di s) -- DI
  | 244 => .ok (nop s) -- XX
  | 245 => .ok (push_nn s .a .f) -- PUSHAF
  | 246 => .ok (xor_n s) -- XORn
  | 247 => .ok (rst_n s 0x30) -- RST30
  | 248 => .ok (ld_hl_sp_n s) -- LD HL SP+n
  | 249 => .ok (ld_sp_hl s) -- LS SP HL
  | 250 => .ok (ld_a_nn s) -- LD A nn
  | 251 => .ok (ei s) -- EI
  | 252 => .ok (nop s) -- XX
  | 253 => .ok (nop s) -- XX
  | 254 => .ok (cp_n s .imm) -- CPn
  | 255 => .ok (rst_n s 0x38) -- RST38
  | _ => .err .keyError s

/-- `GbZ80Cpu.execute_next_operation` (debug prints omitted): fetch, the
debug stuck-check (which calls `sys.exit`), PC increment and mask, dispatch,
cycle accounting, then interrupt handling.  An exception propagates with the
mutations made so far. -/
def executeNextOperation (s : Machine) : StepOut :=
  let op := read8 s s.regs.pc
  if 0x5E00 < s.regs.pc ∧ op = 0 then .err .sysExit s
  else
    let s : Machine := { s with regs := { s.regs with pc := (s.regs.pc + 1) &&& 65535 } }
    match execOp s op with
    | .err msg sErr => .err msg sErr
    | .ok s1 =>
        let s2 := incClock s1
        .ok (handleInterrupts s2)

/-- Iterate `executeNextOperation`; an error stops the run. -/
def stepStates (s : Machine) : Nat -> StepOut
  | 0 => .ok s
  | n + 1 =>
    match stepStates s n with
    | .ok s1 => executeNextOperation s1
    | e => e

/-- The `initial_values` dict of `GbMemory.initialize_memory`. -/
def initialValues : List (Nat × Nat) :=
  [(0xFF05, 0x00), (0xFF06, 0x00), (0xFF07, 0x00),
   (0xFF10, 0x80), (0xFF11, 0xBF), (0xFF12, 0xF3), (0xFF14, 0xBF),
   (0xFF16, 0x3F), (0xFF17, 0x00), (0xFF19, 0xBF),
   (0xFF1A, 0x7F), (0xFF1B, 0xFF), (0xFF1C, 0x9F), (0xFF1E, 0xBF),
   (0xFF20, 0xFF), (0xFF21, 0x00), (0xFF22, 0x00), (0xFF23, 0xBF),
   (0xFF24, 0x77), (0xFF25, 0xF3), (0xFF26, 0xF1),
   (0xFF40, 0x91), (0xFF42, 0x00), (0xFF43, 0x00), (0xFF45, 0x00),
   (0xFF47, 0xFC), (0xFF48, 0xFF), (0xFF49, 0xFF),
   (0xFF4A, 0x00), (0xFF4B, 0x00), (0xFFFF, 0x00)]

/-- Memory after `GbMemory.__init__` with `skip_bios=False`: all zero, then
`initialize_memory` writes the table above. -/
def initMem : Nat -> Nat :=
  initialValues.foldl (fun mem p => memWrite mem p.1 p.2) (fun _ => 0)

/-- `GbZ80Cpu.__init__` register values (post-boot). -/
def initCpuRegs : CpuRegs :=
  { a := 0x01, f := 0xB0, b := 0x00, c := 0x13, d := 0x00, e := 0xD8,
    h := 0x01, l := 0x4D, ime := 1, pc := 0x100, sp := 0xFFFE, m := 0 }

/-- `GbGpu.__init__` state. -/
def initGpu : GpuState :=
  { linemode := 0, modeClock := 0, vblankCounter := 0, curscan := 0,
    tileSet := fun _ _ _ => 0, screen := fun _ => 255 }

/-- The machine as assembled in src/main.py before a ROM is loaded:
fresh memory (with BIOS-skip initial values), fresh CPU, fresh GPU. -/
def initMachine : Machine :=
  { regs := initCpuRegs, rsv := { a := 0, b := 0, c := 0, d := 0, e := 0, f := 0, h := 0, l := 0 },
    clockM := 0, mem := initMem, testMode := false, gpu := initGpu }

/-- Store a list of bytes into memory (as the ROM-load loop does, via
`GbMemory.write_byte`, i.e. without the VRAM fan-out). -/
def withBytes (s : Machine) (bytes : List (Nat × Nat)) : Machine :=
  { s with mem := bytes.foldl (fun mem p => memWrite mem p.1 p.2) s.mem }

/-- The primary-table slots that map to `_raise_opcode_unimplemented`. -/
def unimplPrimary (op : Nat) : Bool :=
  op == 23 || op == 31 || op == 52 || op == 53 || op == 134 || op == 158 ||
  op == 182 || op == 190 || op == 196 || op == 198 || op == 204 || op == 212 ||
  op == 214 || op == 220 || op == 222 || op == 233 || op == 238

/-- The `cb_map` slots that are implemented (RLC r and SWAP r). -/
def cbImplemented (i : Nat) : Bool :=
  i == 0 || i == 1 || i == 2 || i == 3 || i == 4 || i == 5 || i == 7 ||
  i == 48 || i == 49 || i == 50 || i == 51 || i == 52 || i == 53 || i == 55

/-- The `cb_map` slots that raise `_raise_cb_op_unimplemented`. -/
def cbUnimpl (i : Nat) : Bool :=
  decide (i ≤ 255) && !(cbImplemented i)

/-- Index of the lowest-numbered set bit among bits 0..4, as scanned by the
dispatch loop of `handle_interrupts`. -/
def lowestSetBitIdx (t : Nat) : Nat :=
  if t &&& 1 ≠ 0 then 0
  else if t &&& 2 ≠ 0 then 1
  else if t &&& 4 ≠ 0 then 2
  else if t &&& 8 ≠ 0 then 3
  else 4

/-- Interrupt vectors, in bit order, as enumerated in `handle_interrupts`. -/
def intVector (bit : Nat) : Nat :=
  match bit with
  | 0 => 0x40
  | 1 => 0x48
  | 2 => 0x50
  | 3 => 0x58
  | _ => 0x60

/-- Machine after the two VRAM writes of the C1 scenario. -/
def c1_state : Machine := busWrite (busWrite initMachine 0x8000 0xFF) 0x8001 0x00

/-- Machine for the C2 scenario: a chain of three CALLs (5 m-cycles each)
from the post-boot state (mode H-BLANK, mode_clock 0, LY 0). -/
def c2_state : Machine :=
  withBytes initMachine
    [(0x0100, 0xCD), (0x0101, 0x00), (0x0102, 0x02),
     (0x0200, 0xCD), (0x0201, 0x00), (0x0202, 0x03),
     (0x0300, 0xCD), (0x0301, 0x00), (0x0302, 0x04)]

/-- Machine for the C3 scenario: POP AF with 0xFF on the stack. -/
def c3_state : Machine := withBytes initMachine [(0x0100, 0xF1), (0xFFFE, 0xFF)]

/-- Machine for the C4 scenario: a byte written to work RAM. -/
def c4_state : Machine := busWrite initMachine 0xC000 0x42

/-- Machine for the C8 scenario: CALL 0x1234 at 0x0100, RET at 0x1234. -/
def c8_state : Machine :=
  withBytes initMachine [(0x0100, 0xCD), (0x0101, 0x34), (0x0102, 0x12), (0x1234, 0xC9)]

/-- Machine for the C9 INC scenario: carry flag set, INC B at PC. -/
def c9_state_inc : Machine :=
  withBytes { initMachine with regs := { initMachine.regs with f := 0x10, b := 0x00 } }
    [(0x0100, 0x04)]

/-- Machine for the C9 DEC scenario: carry flag set, DEC B at PC. -/
def c9_state_dec : Machine :=
  withBytes { initMachine with regs := { initMachine.regs with f := 0x10, b := 0x00 } }
    [(0x0100, 0x05)]

/-- The error kind carried by a `StepOut`, if any. -/
def StepOut.errKind : StepOut -> Option EmuError
  | .ok _ => none
  | .err e _ => some e

/-- C5 witness state for the IME=0 case: interrupts pending but masked off. -/
def c5_w0 : Machine :=
  withBytes { initMachine with regs := { initMachine.regs with ime := 0 } }
    [(0xFFFF, 0x1F), (0xFF0F, 0x1F)]

/-- C5 witness state for the dispatch case: IE=0x14, IF=0x1C, so bits 2 and 4
are triggered and bit 2 (Timer, vector 0x50) is the lowest. -/
def c5_w1 : Machine := withBytes initMachine [(0xFFFF, 0x14), (0xFF0F, 0x1C)]

/-- C6 counterexample state: IME=0, V-blank pending (IE=IF=0x01), EI at PC. -/
def c6_cex_state : Machine :=
  withBytes { initMachine with regs := { initMachine.regs with ime := 0 } }
    [(0x0100, 0xFB), (0xFFFF, 0x01), (0xFF0F, 0x01)]

/-- C6 witness base state: OAM mode, quiet GPU window, EI at PC, V-blank
pending. -/
def c6_w1 : Machine :=
  withBytes { initMachine with regs := { initMachine.regs with ime := 0 }, gpu := { initGpu with linemode := 2 } }
    [(0x0100, 0xFB), (0xFFFF, 0x01), (0xFF0F, 0x01)]

/-- C6 witness state for the DI part. -/
def c6_w2 : Machine :=
  withBytes { initMachine with gpu := { initGpu with linemode := 2 } }
    [(0x0100, 0xF3)]

/-- C7 counterexample state: unimplemented opcode 0x17 (RLA slot) at PC. -/
def c7_cex1 : Machine := withBytes initMachine [(0x0100, 0x17)]

/-- C7 counterexample state: a different unimplemented opcode, 0x34
(INC (HL) slot), at PC. -/
def c7_cex2 : Machine := withBytes initMachine [(0x0100, 0x34)]

/-- C7 witness state for the CB part: CB prefix with unimplemented 0x08. -/
def c7_w_cb : Machine := withBytes initMachine [(0x0100, 0xCB), (0x0101, 0x08)]

/-- C10 witness state: RETI at PC with a distinctive `rsv` snapshot and a
return address 0x0034 on the stack; OAM mode for the quiet-GPU window. -/
def c10_w1 : Machine :=
  withBytes { initMachine with rsv := { a := 11, b := 12, c := 13, d := 14, e := 15, f := 16, h := 17, l := 18 }, gpu := { initGpu with linemode := 2 } }
    [(0x0100, 0xD9), (0xFFFE, 0x34), (0xFFFF, 0x00)]

/-- C10 witness state for the RST part: RST 00 at PC. -/
def c10_w2 : Machine := withBytes initMachine [(0x0100, 0xC7)]

/-! Preservation lemmas: the GPU/bus side never touches the CPU register
file, the `rsv` snapshot, the clock, or the test-mode flag. -/

@[simp] theorem updateTile_regs (s : Machine) (a : Nat) : (updateTile s a).regs = s.regs := rfl

@[simp] theorem updateTile_rsv (s : Machine) (a : Nat) : (updateTile s a).rsv = s.rsv := rfl

@[simp] theorem updateTile_mem (s : Machine) (a : Nat) : (updateTile s a).mem = s.mem := rfl

@[simp] theorem updateTile_testMode (s : Machine) (a : Nat) :
    (updateTile s a).testMode = s.testMode := rfl

@[simp] theorem updateTile_clockM (s : Machine) (a : Nat) :
    (updateTile s a).clockM = s.clockM := rfl

@[simp] theorem ite_machine_regs (c : Prop) [Decidable c] (a b : Machine) :
    (ite c a b).regs = ite c a.regs b.regs := by split <;> rfl

@[simp] theorem ite_machine_rsv (c : Prop) [Decidable c] (a b : Machine) :
    (ite c a b).rsv = ite c a.rsv b.rsv := by split <;> rfl

@[simp] theorem busWrite_regs (s : Machine) (a v : Nat) : (busWrite s a v).regs = s.regs := by
  unfold busWrite; split <;> rfl

@[simp] theorem busWrite_rsv (s : Machine) (a v : Nat) : (busWrite s a v).rsv = s.rsv := by
  unfold busWrite; split <;> rfl

@[simp] theorem busWrite_mem (s : Machine) (a v : Nat) :
    (busWrite s a v).mem = memWrite s.mem a v := by
  unfold busWrite; split <;> rfl

@[simp] theorem busWrite_testMode (s : Machine) (a v : Nat) :
    (busWrite s a v).testMode = s.testMode := by
  unfold busWrite; split <;> rfl

@[simp] theorem busWrite_clockM (s : Machine) (a v : Nat) :
    (busWrite s a v).clockM = s.clockM := by
  unfold busWrite; split <;> rfl

@[simp] theorem updateStatRegister_regs (s : Machine) :
    (updateStatRegister s).regs = s.regs := by
  unfold updateStatRegister; split <;> simp

@[simp] theorem updateStatRegister_rsv (s : Machine) :
    (updateStatRegister s).rsv = s.rsv := by
  unfold updateStatRegister; split <;> simp

@[simp] theorem renderscan_regs (s : Machine) : (renderscan s).regs = s.regs := by
  unfold renderscan; split
  · rfl
  · split
    · rfl
    · rfl

@[simp] theorem renderscan_rsv (s : Machine) : (renderscan s).rsv = s.rsv := by
  unfold renderscan; split
  · rfl
  · split
    · rfl
    · rfl

@[simp] theorem hBlankRenderScreen_regs (s : Machine) :
    (hBlankRenderScreen s).regs = s.regs := by
  unfold hBlankRenderScreen
  dsimp only
  split
  · split <;> simp
  · rfl

@[simp] theorem hBlankRenderScreen_rsv (s : Machine) :
    (hBlankRenderScreen s).rsv = s.rsv := by
  unfold hBlankRenderScreen
  dsimp only
  split
  · split <;> simp
  · rfl

@[simp] theorem vBlank_regs (s : Machine) : (vBlank s).regs = s.regs := by
  unfold vBlank
  simp

@[simp] theorem vBlank_rsv (s : Machine) : (vBlank s).rsv = s.rsv := by
  unfold vBlank
  simp

@[simp] theorem oamReadMode_regs (s : Machine) : (oamReadMode s).regs = s.regs := by
  unfold oamReadMode; split <;> simp

@[simp] theorem oamReadMode_rsv (s : Machine) : (oamReadMode s).rsv = s.rsv := by
  unfold oamReadMode; split <;> simp

@[simp] theorem vramReadMode_regs (s : Machine) : (vramReadMode s).regs = s.regs := by
  unfold vramReadMode; split <;> simp

@[simp] theorem vramReadMode_rsv (s : Machine) : (vramReadMode s).rsv = s.rsv := by
  unfold vramReadMode; split <;> simp

@[simp] theorem gpuStep_regs (s : Machine) (n : Nat) : (gpuStep s n).regs = s.regs := by
  unfold gpuStep; dsimp only; split
  · simp
  · split
    · simp
    · split <;> simp

@[simp] theorem gpuStep_rsv (s : Machine) (n : Nat) : (gpuStep s n).rsv = s.rsv := by
  unfold gpuStep; dsimp only; split
  · simp
  · split
    · simp
    · split <;> simp

@[simp] theorem incClock_regs (s : Machine) : (incClock s).regs = s.regs := by
  unfold incClock; simp

@[simp] theorem incClock_rsv (s : Machine) : (incClock s).rsv = s.rsv := by
  unfold incClock; simp

@[simp] theorem write16_regs (s : Machine) (a v : Nat) : (write16 s a v).regs = s.regs := by
  unfold write16; simp

@[simp] theorem write16_rsv (s : Machine) (a v : Nat) : (write16 s a v).rsv = s.rsv := by
  unfold write16; simp

@[simp] theorem executeInterrupt_rsv (s : Machine) (bit addr : Nat) :
    (executeInterrupt s bit addr).rsv = s.rsv := by
  unfold executeInterrupt; simp

@[simp] theorem handleInterrupts_rsv (s : Machine) :
    (handleInterrupts s).rsv = s.rsv := by
  unfold handleInterrupts
  dsimp only
  split
  · rfl
  · split
    · simp
    · split
      · simp
      · split
        · simp
        · split
          · simp
          · split <;> simp

/-- When IME is 0, `handle_interrupts` returns without touching anything. -/
theorem handleInterrupts_imeZero (s : Machine) (h : s.regs.ime = 0) :
    handleInterrupts s = s := by
  unfold handleInterrupts
  simp [h]

/-- When `IE & IF` is 0, `handle_interrupts` finds nothing to dispatch. -/
theorem handleInterrupts_noTrig (s : Machine)
    (h : busRead s 0xFFFF &&& busRead s 0xFF0F = 0) :
    handleInterrupts s = s := by
  unfold handleInterrupts
  split
  · rfl
  · simp [h]

/-! Bit-level helpers about `&&&` on `Nat`. -/

theorem landAssoc (x a b : Nat) : x &&& a &&& b = x &&& (a &&& b) := by
  apply Nat.eq_of_testBit_eq
  intro i
  simp [Nat.testBit_land, Bool.and_assoc]

theorem testBit_false_of_land_zero (t m j : Nat) (hm : t &&& m = 0)
    (hj : Nat.testBit m j = true) : t.testBit j = false := by
  have h := congrArg (fun x => Nat.testBit x j) hm
  simp only [Nat.testBit_land, Nat.zero_testBit] at h
  rcases Bool.and_eq_false_iff.mp h with h' | h'
  · exact h'
  · rw [hj] at h'; exact absurd h' (by simp)

/-- If none of the five low bits of `t` is set, then `t &&& 0x1F = 0`. -/
theorem land31_eq_zero (t : Nat) (h1 : t &&& 1 = 0) (h2 : t &&& 2 = 0)
    (h4 : t &&& 4 = 0) (h8 : t &&& 8 = 0) (h16 : t &&& 16 = 0) :
    t &&& 31 = 0 := by
  apply Nat.eq_of_testBit_eq
  intro i
  simp only [Nat.testBit_land, Nat.zero_testBit]
  match i with
  | 0 => simp [testBit_false_of_land_zero t 1 0 h1 (by decide)]
  | 1 => simp [testBit_false_of_land_zero t 2 1 h2 (by decide)]
  | 2 => simp [testBit_false_of_land_zero t 4 2 h4 (by decide)]
  | 3 => simp [testBit_false_of_land_zero t 8 3 h8 (by decide)]
  | 4 => simp [testBit_false_of_land_zero t 16 4 h16 (by decide)]
  | (j + 5) =>
    have : Nat.testBit 31 (j + 5) = false := by
      apply Nat.testBit_lt_two_pow
      calc 31 < 2 ^ 5 := by decide
      _ ≤ 2 ^ (j + 5) := Nat.pow_le_pow_right (by decide) (by omega)
    simp [this]

/-- Full characterization of `_execute_interrupt`: IME cleared, the IF bit
cleared, PC pushed little-endian at SP-2, PC set to the vector, 5 cycles. -/
theorem executeInterrupt_spec (s : Machine) (bit addr : Nat)
    (hsp : 2 ≤ s.regs.sp)
    (ha : s.regs.sp - 2 ≠ 0xFF0F) (hb : s.regs.sp - 1 ≠ 0xFF0F) :
    (executeInterrupt s bit addr).regs.ime = 0 ∧
    (executeInterrupt s bit addr).regs.pc = addr ∧
    (executeInterrupt s bit addr).regs.sp = s.regs.sp - 2 ∧
    (executeInterrupt s bit addr).mem (s.regs.sp - 2) = s.regs.pc &&& 0xFF ∧
    (executeInterrupt s bit addr).mem (s.regs.sp - 1) = (s.regs.pc >>> 8) &&& 0xFF ∧
    (executeInterrupt s bit addr).mem 0xFF0F = pyAndNot (busRead s 0xFF0F) (1 <<< bit) ∧
    (executeInterrupt s bit addr).regs.m = 5 := by
  have hm1 : s.regs.sp - 2 + 1 = s.regs.sp - 1 := by omega
  have hne : s.regs.sp - 2 ≠ s.regs.sp - 2 + 1 := by omega
  refine ⟨?_, ?_, ?_, ?_, ?_, ?_, ?_⟩
  · unfold executeInterrupt write16
    simp
  · unfold executeInterrupt write16
    simp
  · unfold executeInterrupt write16
    simp
  · unfold executeInterrupt write16
    simp only [busWrite_regs, busWrite_mem, busWrite_testMode, memWrite]
    simp [hne]
  · unfold executeInterrupt write16
    simp only [busWrite_regs, busWrite_mem, busWrite_testMode, memWrite]
    simp [hm1]
  · have h1 : (0xFF0F : Nat) ≠ s.regs.sp - 2 + 1 := by omega
    have h2 : (0xFF0F : Nat) ≠ s.regs.sp - 2 := by omega
    unfold executeInterrupt write16
    simp only [busWrite_regs, busWrite_mem, busWrite_testMode, memWrite, busRead, memReadByte]
    simp [h1, h2]
  · unfold executeInterrupt write16
    simp

/-- Dispatch characterization of `handle_interrupts` when IME is set and a
maskable interrupt is pending: the lowest-numbered set bit of
`IE & IF & 0x1F` wins. -/
theorem handleInterrupts_dispatch (s : Machine)
    (hime : s.regs.ime = 1)
    (ht : (busRead s 0xFFFF &&& busRead s 0xFF0F) &&& 0x1F ≠ 0)
    (hsp : 2 ≤ s.regs.sp)
    (ha : s.regs.sp - 2 ≠ 0xFF0F) (hb : s.regs.sp - 1 ≠ 0xFF0F) :
    (handleInterrupts s).regs.ime = 0 ∧
    (handleInterrupts s).regs.pc =
      intVector (lowestSetBitIdx ((busRead s 0xFFFF &&& busRead s 0xFF0F) &&& 0x1F)) ∧
    (handleInterrupts s).regs.sp = s.regs.sp - 2 ∧
    (handleInterrupts s).mem (s.regs.sp - 2) = s.regs.pc &&& 0xFF ∧
    (handleInterrupts s).mem (s.regs.sp - 1) = (s.regs.pc >>> 8) &&& 0xFF ∧
    (handleInterrupts s).mem 0xFF0F = pyAndNot (busRead s 0xFF0F)
      (1 <<< lowestSetBitIdx ((busRead s 0xFFFF &&& busRead s 0xFF0F) &&& 0x1F)) ∧
    (handleInterrupts s).regs.m = 5 := by
  set t := busRead s 0xFFFF &&& busRead s 0xFF0F with hT
  have e1 : t &&& 0x1F &&& 1 = t &&& 1 := by
    rw [landAssoc, (by decide : (0x1F &&& 1 : Nat) = 1)]
  have e2 : t &&& 0x1F &&& 2 = t &&& 2 := by
    rw [landAssoc, (by decide : (0x1F &&& 2 : Nat) = 2)]
  have e4 : t &&& 0x1F &&& 4 = t &&& 4 := by
    rw [landAssoc, (by decide : (0x1F &&& 4 : Nat) = 4)]
  have e8 : t &&& 0x1F &&& 8 = t &&& 8 := by
    rw [landAssoc, (by decide : (0x1F &&& 8 : Nat) = 8)]
  have e16 : t &&& 0x1F &&& 16 = t &&& 16 := by
    rw [landAssoc, (by decide : (0x1F &&& 16 : Nat) = 16)]
  have hun : handleInterrupts s =
      (if t &&& 1 ≠ 0 then executeInterrupt s 0 0x40
       else if t &&& 2 ≠ 0 then executeInterrupt s 1 0x48
       else if t &&& 4 ≠ 0 then executeInterrupt s 2 0x50
       else if t &&& 8 ≠ 0 then executeInterrupt s 3 0x58
       else if t &&& 16 ≠ 0 then executeInterrupt s 4 0x60
       else s) := by
    unfold handleInterrupts
    rw [if_neg (by omega)]
  by_cases c1 : t &&& 1 ≠ 0
  · have hk : lowestSetBitIdx (t &&& 0x1F) = 0 := by unfold lowestSetBitIdx; rw [e1, if_pos c1]
    rw [hun, if_pos c1, hk]
    exact executeInterrupt_spec s 0 0x40 hsp ha hb
  · by_cases c2 : t &&& 2 ≠ 0
    · have hk : lowestSetBitIdx (t &&& 0x1F) = 1 := by
        unfold lowestSetBitIdx; rw [e1, if_neg c1, e2, if_pos c2]
      rw [hun, if_neg c1, if_pos c2, hk]
      exact executeInterrupt_spec s 1 0x48 hsp ha hb
    · by_cases c4 : t &&& 4 ≠ 0
      · have hk : lowestSetBitIdx (t &&& 0x1F) = 2 := by
          unfold lowestSetBitIdx; rw [e1, if_neg c1, e2, if_neg c2, e4, if_pos c4]
        rw [hun, if_neg c1, if_neg c2, if_pos c4, hk]
        exact executeInterrupt_spec s 2 0x50 hsp ha hb
      · by_cases c8 : t &&& 8 ≠ 0
        · have hk : lowestSetBitIdx (t &&& 0x1F) = 3 := by
            unfold lowestSetBitIdx
            rw [e1, if_neg c1, e2, if_neg c2, e4, if_neg c4, e8, if_pos c8]
          rw [hun, if_neg c1, if_neg c2, if_neg c4, if_pos c8, hk]
          exact executeInterrupt_spec s 3 0x58 hsp ha hb
        · by_cases c16 : t &&& 16 ≠ 0
          · have hk : lowestSetBitIdx (t &&& 0x1F) = 4 := by
              unfold lowestSetBitIdx
              rw [e1, if_neg c1, e2, if_neg c2, e4, if_neg c4, e8, if_neg c8]
            rw [hun, if_neg c1, if_neg c2, if_neg c4, if_neg c8, if_pos c16, hk]
            exact executeInterrupt_spec s 4 0x60 hsp ha hb
          · exfalso
            apply ht
            push_neg at c1 c2 c4 c8 c16
            exact land31_eq_zero t c1 c2 c4 c8 c16

/-- Bus reads only depend on memory and the test-mode flag. -/
theorem busRead_eq_of (s s' : Machine) (hm : s'.mem = s.mem)
    (ht : s'.testMode = s.testMode) (a : Nat) : busRead s' a = busRead s a := by
  unfold busRead memReadByte
  rw [hm, ht]

/-- Word reads only depend on memory and the test-mode flag. -/
theorem busReadWord_eq_of (s s' : Machine) (hm : s'.mem = s.mem)
    (ht : s'.testMode = s.testMode) (a : Nat) : busReadWord s' a = busReadWord s a := by
  unfold busReadWord
  rw [busRead_eq_of s s' hm ht, busRead_eq_of s s' hm ht]

/-- While in OAM mode with the threshold not yet reached, `GbGpu.step` only
advances `mode_clock`. -/
theorem gpuStep_quiet_oam (s : Machine) (n : Nat) (h2 : s.gpu.linemode = 2)
    (hlt : s.gpu.modeClock + n < 20) :
    gpuStep s n = { s with gpu := { s.gpu with modeClock := s.gpu.modeClock + n } } := by
  unfold gpuStep oamReadMode
  dsimp only
  rw [if_neg (by simp [h2]), if_neg (by simp [h2]), if_pos (by simp [h2]),
    if_neg (by simp; omega)]

/-- `_inc_clock` under the same quiet-OAM condition: only the accumulated
clock and `mode_clock` change. -/
theorem incClock_quiet_oam (s : Machine) (h2 : s.gpu.linemode = 2)
    (hlt : s.gpu.modeClock + s.regs.m * 4 < 20) :
    incClock s = { s with clockM := s.clockM + s.regs.m, gpu := { s.gpu with modeClock := s.gpu.modeClock + s.regs.m * 4 } } := by
  unfold incClock
  dsimp only
  rw [gpuStep_quiet_oam _ _ (by exact h2) (by exact hlt)]

/-- Generic reduction of `execute_next_operation` once the fetched opcode is
known (and non-zero, so the debug stuck-check does not fire). -/
theorem executeNextOperation_eq_of_op (s : Machine) (k : Nat)
    (hop : busRead s s.regs.pc = k) (hk : k ≠ 0) :
    executeNextOperation s =
      (match execOp { s with regs := { s.regs with pc := (s.regs.pc + 1) &&& 65535 } } k with
       | .err e sE => .err e sE
       | .ok s1 => .ok (handleInterrupts (incClock s1))) := by
  unfold executeNextOperation read8
  simp only [hop]
  rw [if_neg (by exact fun hcon => hk hcon.2)]

/-! Claim theorems. -/


/-- C1: false on the code.  After `write8(0x8000, 0xFF)` and
`write8(0x8001, 0x00)` the VRAM bytes hold 0xFF/0x00, whose interleaving is
[1,1,1,1,1,1,1,1]; but `update_tile` recomputes the cached row from the two
bytes at `addr & 0x1FFE` (= 0x0000/0x0001, both 0), so `tile_cache[0][0]`
is all zeros, not the interleaving of the two VRAM bytes. -/
theorem c1_tile_cache_reads_low_memory :
    c1_state.mem 0x8000 = 0xFF ∧ c1_state.mem 0x8001 = 0x00 ∧
    c1_state.mem 0x0000 = 0 ∧ c1_state.mem 0x0001 = 0 ∧
    (∀ x, x < 8 → c1_state.gpu.tileSet 0 0 x = 0) ∧
    ¬ (∀ x, x < 8 → c1_state.gpu.tileSet 0 0 x = 1) := by decide


set_option maxHeartbeats 1600000 in
/-- C2: false on the code.  From the post-boot state (H-BLANK, mode_clock 0,
LY 0), three CALL instructions charge 15 m-cycles in total, yet the
H-BLANK -> OAM transition (threshold 51) has already fired and LY has advanced
to 1, because `_inc_clock` passes `m * 4` to `GbGpu.step` while the
thresholds are m-cycle values: a scanline completes after 114/4 = 28.5
charged m-cycles, not 114, so a frame is not 154 x 114 m-cycles of CPU time. -/
theorem c2_ppu_runs_four_times_fast :
    ((stepStates c2_state 2).isOk = true ∧
     (stepStates c2_state 2).state.clockM = 10 ∧
     (stepStates c2_state 2).state.gpu.linemode = 0 ∧
     (stepStates c2_state 2).state.mem 0xFF44 = 0) ∧
    ((stepStates c2_state 3).isOk = true ∧
     (stepStates c2_state 3).state.clockM = 15 ∧
     (stepStates c2_state 3).state.gpu.linemode = 2 ∧
     (stepStates c2_state 3).state.mem 0xFF44 = 1 ∧
     (stepStates c2_state 3).state.clockM < 51) := by decide


/-- C3: false on the code.  Executing POP AF (0xF1) with byte 0xFF at SP
loads F = 0xFF verbatim (`_pop_nn` applies no mask), so the low nibble of F
is 0xF, not 0. -/
theorem c3_pop_af_keeps_low_nibble :
    (stepStates c3_state 1).isOk = true ∧
    (stepStates c3_state 1).state.regs.f = 0xFF ∧
    (stepStates c3_state 1).state.regs.f &&& 0x0F = 0x0F := by decide


/-- C4: false on the code.  After `write8(0xC000, 0x42)`, reading the echo
address 0xE000 returns the untouched byte stored at 0xE000 itself (0), not
0x42: neither `GbMemory` nor `GbSystemInterface` implements the E000-FDFF
mirror. -/
theorem c4_echo_region_not_mirrored :
    busRead c4_state 0xC000 = 0x42 ∧
    busRead c4_state 0xE000 = 0 ∧
    ¬ busRead c4_state 0xE000 = 0x42 := by decide


/-- C8: confirmed.  With SP=0xFFFE and `CD 34 12` at PC=0x0100: after CALL,
PC=0x1234, SP=0xFFFC, memory[0xFFFC]=0x03 and memory[0xFFFD]=0x01; after the
RET at 0x1234, PC=0x0103 and SP=0xFFFE. -/
theorem c8_call_ret_round_trip :
    c8_state.regs.pc = 0x0100 ∧ c8_state.regs.sp = 0xFFFE ∧
    (stepStates c8_state 1).isOk = true ∧
    (stepStates c8_state 1).state.regs.pc = 0x1234 ∧
    (stepStates c8_state 1).state.regs.sp = 0xFFFC ∧
    (stepStates c8_state 1).state.mem 0xFFFC = 0x03 ∧
    (stepStates c8_state 1).state.mem 0xFFFD = 0x01 ∧
    (stepStates c8_state 2).isOk = true ∧
    (stepStates c8_state 2).state.regs.pc = 0x0103 ∧
    (stepStates c8_state 2).state.regs.sp = 0xFFFE := by decide



/-- C9: false on the code.  `_inc_r` and `_dec_r` rebuild F from scratch, so
the carry flag is cleared rather than preserved: with F=0x10 and B=0, INC B
leaves F=0x00 and DEC B leaves F=0x60 — bit 0x10 is lost in both cases
(the claim requires it unchanged). -/
theorem c9_inc_dec_clear_carry :
    c9_state_inc.regs.f &&& 0x10 = 0x10 ∧
    (stepStates c9_state_inc 1).isOk = true ∧
    (stepStates c9_state_inc 1).state.regs.f = 0x00 ∧
    (stepStates c9_state_inc 1).state.regs.f &&& 0x10 = 0 ∧
    (stepStates c9_state_dec 1).isOk = true ∧
    (stepStates c9_state_dec 1).state.regs.f = 0x60 ∧
    (stepStates c9_state_dec 1).state.regs.f &&& 0x10 = 0 := by decide

/-- C5: confirmed.  After an instruction, with `triggered = IE & IF` (only
bits 0-4 ever scanned, so the missing `& 0x1F` in the source is behaviorally
irrelevant): if IME is set and `IE & IF & 0x1F` is non-zero, the dispatcher
clears IME, selects the lowest-numbered set bit, clears it in IF, pushes PC
(little-endian, two bytes at SP-2), jumps to that bit's vector and sets the
cycle register to 5; if IME is clear, the state is completely untouched, so
the pending bits of IE & IF remain pending. -/
theorem c5_interrupt_dispatch_rule (s : Machine) :
    (s.regs.ime = 0 → handleInterrupts s = s) ∧
    (s.regs.ime = 1 →
      (busRead s 0xFFFF &&& busRead s 0xFF0F) &&& 0x1F ≠ 0 →
      2 ≤ s.regs.sp → s.regs.sp - 2 ≠ 0xFF0F → s.regs.sp - 1 ≠ 0xFF0F →
      (handleInterrupts s).regs.ime = 0 ∧
      (handleInterrupts s).regs.pc =
        intVector (lowestSetBitIdx ((busRead s 0xFFFF &&& busRead s 0xFF0F) &&& 0x1F)) ∧
      (handleInterrupts s).regs.sp = s.regs.sp - 2 ∧
      (handleInterrupts s).mem (s.regs.sp - 2) = s.regs.pc &&& 0xFF ∧
      (handleInterrupts s).mem (s.regs.sp - 1) = (s.regs.pc >>> 8) &&& 0xFF ∧
      (handleInterrupts s).mem 0xFF0F = pyAndNot (busRead s 0xFF0F)
        (1 <<< lowestSetBitIdx ((busRead s 0xFFFF &&& busRead s 0xFF0F) &&& 0x1F)) ∧
      (handleInterrupts s).regs.m = 5) :=
  ⟨fun h => handleInterrupts_imeZero s h,
   fun hime ht hsp ha hb => handleInterrupts_dispatch s hime ht hsp ha hb⟩

/-- C5 witness: with IME=0 and IE=IF=0x1F nothing happens; with IME=1,
IE=0x14, IF=0x1C, the Timer interrupt (bit 2) is dispatched: PC=0x50,
SP drops to 0xFFFC, the old PC 0x0100 is pushed, IF becomes 0x18, m=5. -/
theorem c5_interrupt_dispatch_rule_witness :
    (handleInterrupts c5_w0 = c5_w0) ∧
    (handleInterrupts c5_w1).regs.ime = 0 ∧
    (handleInterrupts c5_w1).regs.pc = 0x50 ∧
    (handleInterrupts c5_w1).regs.sp = 0xFFFC ∧
    (handleInterrupts c5_w1).mem 0xFFFC = 0x00 ∧
    (handleInterrupts c5_w1).mem 0xFFFD = 0x01 ∧
    (handleInterrupts c5_w1).mem 0xFF0F = 0x18 ∧
    (handleInterrupts c5_w1).regs.m = 5 := by
  have h0 := (c5_interrupt_dispatch_rule c5_w0).1 (by decide)
  have h1 := (c5_interrupt_dispatch_rule c5_w1).2 (by decide) (by decide)
    (by decide) (by decide) (by decide)
  obtain ⟨ha, hb, hc, hd, he, hf, hg⟩ := h1
  have e1 : intVector (lowestSetBitIdx
      ((busRead c5_w1 0xFFFF &&& busRead c5_w1 0xFF0F) &&& 0x1F)) = 0x50 := by decide
  have e2 : c5_w1.regs.sp - 2 = 0xFFFC := by decide
  have e3 : c5_w1.regs.sp - 1 = 0xFFFD := by decide
  have e4 : c5_w1.regs.pc &&& 0xFF = 0x00 := by decide
  have e5 : (c5_w1.regs.pc >>> 8) &&& 0xFF = 0x01 := by decide
  have e6 : pyAndNot (busRead c5_w1 0xFF0F) (1 <<< lowestSetBitIdx
      ((busRead c5_w1 0xFFFF &&& busRead c5_w1 0xFF0F) &&& 0x1F)) = 0x18 := by decide
  rw [e1] at hb
  rw [e2] at hc
  rw [e2, e4] at hd
  rw [e3, e5] at he
  rw [e6] at hf
  exact ⟨h0, ha, hb, hc, hd, he, hf, hg⟩

/-! Single-arm reductions of the dispatch table, for symbolic states. -/

theorem execOp_ei_arm (s : Machine) : execOp s 251 = .ok (ei s) := rfl

theorem execOp_di_arm (s : Machine) : execOp s 243 = .ok (di s) := rfl

theorem execOp_reti_arm (s : Machine) : execOp s 217 = .ok (reti s) := rfl

theorem execOp_rst00_arm (s : Machine) : execOp s 199 = .ok (rst_n s 0x00) := rfl

theorem execOp_cb_arm (s : Machine) : execOp s 203 = callCbOp s := rfl

/-- C6 counterexample: with IME=0, IE=IF=0x01 (V-blank pending) and EI at
PC=0x0100, a single `execute_next_operation` call both enables IME and
dispatches the pending interrupt: afterwards PC=0x0040, SP=0xFFFC, the IF bit
is consumed and IME is 0 again.  The claim requires that the interrupt not be
dispatched until one further instruction has executed (PC should be 0x0101
with the IF bit still set). -/
theorem c6_ei_delay_cex :
    busRead c6_cex_state c6_cex_state.regs.pc = 0xFB ∧
    c6_cex_state.regs.ime = 0 ∧
    (busRead c6_cex_state 0xFFFF &&& busRead c6_cex_state 0xFF0F) &&& 0x1F ≠ 0 ∧
    (stepStates c6_cex_state 1).isOk = true ∧
    (stepStates c6_cex_state 1).state.regs.pc = 0x40 ∧
    (stepStates c6_cex_state 1).state.regs.sp = 0xFFFC ∧
    (stepStates c6_cex_state 1).state.mem 0xFF0F = 0 ∧
    (stepStates c6_cex_state 1).state.regs.ime = 0 := by decide

/-- C6 as amended: `_ei` sets IME at once and `execute_next_operation` runs
the interrupt dispatcher at the end of the same call, so an interrupt pending
at the end of the EI instruction itself is dispatched immediately (no
one-instruction defer); EI with nothing pending leaves IME=1 and PC advanced
past EI; DI clears IME immediately and nothing is dispatched.  (Stated in a
quiet-GPU window — OAM mode below its threshold — so that the PPU makes no
memory writes during the step.) -/
theorem c6_ei_takes_effect_immediately (s : Machine)
    (hlm : s.gpu.linemode = 2) (hmc : s.gpu.modeClock + 4 < 20) :
    (busRead s s.regs.pc = 0xFB →
      (busRead s 0xFFFF &&& busRead s 0xFF0F) &&& 0x1F ≠ 0 →
      2 ≤ s.regs.sp → s.regs.sp - 2 ≠ 0xFF0F → s.regs.sp - 1 ≠ 0xFF0F →
      (executeNextOperation s).isOk = true ∧
      (executeNextOperation s).state.regs.ime = 0 ∧
      (executeNextOperation s).state.regs.pc =
        intVector (lowestSetBitIdx ((busRead s 0xFFFF &&& busRead s 0xFF0F) &&& 0x1F)) ∧
      (executeNextOperation s).state.mem 0xFF0F = pyAndNot (busRead s 0xFF0F)
        (1 <<< lowestSetBitIdx ((busRead s 0xFFFF &&& busRead s 0xFF0F) &&& 0x1F))) ∧
    (busRead s s.regs.pc = 0xFB →
      busRead s 0xFFFF &&& busRead s 0xFF0F = 0 →
      (executeNextOperation s).isOk = true ∧
      (executeNextOperation s).state.regs.ime = 1 ∧
      (executeNextOperation s).state.regs.pc = (s.regs.pc + 1) &&& 65535) ∧
    (busRead s s.regs.pc = 0xF3 →
      (executeNextOperation s).isOk = true ∧
      (executeNextOperation s).state.regs.ime = 0 ∧
      (executeNextOperation s).state.regs.pc = (s.regs.pc + 1) &&& 65535) := by
  refine ⟨?_, ?_, ?_⟩
  · intro hop ht hsp ha hb
    set s1 : Machine := { s with regs := { s.regs with pc := (s.regs.pc + 1) &&& 65535 } } with hs1def
    have hstep : executeNextOperation s = .ok (handleInterrupts (incClock (ei s1))) := by
      rw [executeNextOperation_eq_of_op s 0xFB hop (by decide), execOp_ei_arm]
    set s2 : Machine := { ei s1 with clockM := (ei s1).clockM + (ei s1).regs.m, gpu := { (ei s1).gpu with modeClock := (ei s1).gpu.modeClock + (ei s1).regs.m * 4 } } with hs2def
    have hq : incClock (ei s1) = s2 := incClock_quiet_oam (ei s1) (by exact hlm) (by exact hmc)
    rw [hstep, hq]
    have hd := handleInterrupts_dispatch s2 (by exact rfl) (by exact ht)
      (by exact hsp) (by exact ha) (by exact hb)
    exact ⟨rfl, hd.1, hd.2.1, hd.2.2.2.2.2.1⟩
  · intro hop ht0
    set s1 : Machine := { s with regs := { s.regs with pc := (s.regs.pc + 1) &&& 65535 } } with hs1def
    have hstep : executeNextOperation s = .ok (handleInterrupts (incClock (ei s1))) := by
      rw [executeNextOperation_eq_of_op s 0xFB hop (by decide), execOp_ei_arm]
    set s2 : Machine := { ei s1 with clockM := (ei s1).clockM + (ei s1).regs.m, gpu := { (ei s1).gpu with modeClock := (ei s1).gpu.modeClock + (ei s1).regs.m * 4 } } with hs2def
    have hq : incClock (ei s1) = s2 := incClock_quiet_oam (ei s1) (by exact hlm) (by exact hmc)
    rw [hstep, hq, handleInterrupts_noTrig s2 (by exact ht0)]
    exact ⟨rfl, rfl, rfl⟩
  · intro hop
    set s1 : Machine := { s with regs := { s.regs with pc := (s.regs.pc + 1) &&& 65535 } } with hs1def
    have hstep : executeNextOperation s = .ok (handleInterrupts (incClock (di s1))) := by
      rw [executeNextOperation_eq_of_op s 0xF3 hop (by decide), execOp_di_arm]
    set s2 : Machine := { di s1 with clockM := (di s1).clockM + (di s1).regs.m, gpu := { (di s1).gpu with modeClock := (di s1).gpu.modeClock + (di s1).regs.m * 4 } } with hs2def
    have hq : incClock (di s1) = s2 := incClock_quiet_oam (di s1) (by exact hlm) (by exact hmc)
    rw [hstep, hq, handleInterrupts_imeZero s2 (by exact rfl)]
    exact ⟨rfl, rfl, rfl⟩

/-- C6 witness: on the concrete pending-EI state the dispatch happens in the
same step (PC=0x40, IF consumed); on the concrete DI state IME is 0 and PC
just advances. -/
theorem c6_ei_takes_effect_immediately_witness :
    (executeNextOperation c6_w1).isOk = true ∧
    (executeNextOperation c6_w1).state.regs.ime = 0 ∧
    (executeNextOperation c6_w1).state.regs.pc = 0x40 ∧
    (executeNextOperation c6_w1).state.mem 0xFF0F = 0 ∧
    (executeNextOperation c6_w2).isOk = true ∧
    (executeNextOperation c6_w2).state.regs.ime = 0 ∧
    (executeNextOperation c6_w2).state.regs.pc = 0x0101 := by
  have h1 := (c6_ei_takes_effect_immediately c6_w1 (by decide) (by decide)).1
    (by decide) (by decide) (by decide) (by decide) (by decide)
  have h2 := (c6_ei_takes_effect_immediately c6_w2 (by decide) (by decide)).2.2 (by decide)
  obtain ⟨ha, hb, hc, hd⟩ := h1
  obtain ⟨he, hf, hg⟩ := h2
  have e1 : intVector (lowestSetBitIdx
      ((busRead c6_w1 0xFFFF &&& busRead c6_w1 0xFF0F) &&& 0x1F)) = 0x40 := by decide
  have e2 : pyAndNot (busRead c6_w1 0xFF0F) (1 <<< lowestSetBitIdx
      ((busRead c6_w1 0xFFFF &&& busRead c6_w1 0xFF0F) &&& 0x1F)) = 0 := by decide
  have e3 : (c6_w2.regs.pc + 1) &&& 65535 = 0x0101 := by decide
  rw [e1] at hc
  rw [e2] at hd
  rw [e3] at hg
  exact ⟨ha, hb, hc, hd, he, hf, hg⟩

/-- Every primary-table slot mapped to `_raise_opcode_unimplemented` raises
the same constant exception and mutates nothing. -/
theorem execOp_unimpl (s : Machine) (op : Nat) (h : unimplPrimary op = true) :
    execOp s op = .err .opcodeUnimplemented s := by
  simp only [unimplPrimary, Bool.or_eq_true, beq_iff_eq] at h
  have hmem : op ∈ ([23, 31, 52, 53, 134, 158, 182, 190, 196, 198, 204, 212,
      214, 220, 222, 233, 238] : List Nat) := by
    simp only [List.mem_cons, List.not_mem_nil, or_false]
    omega
  fin_cases hmem <;> rfl

/-- Every unimplemented `cb_map` slot raises the same constant exception and
mutates nothing. -/
theorem cbOp_unimpl (s : Machine) (i : Nat) (h : cbUnimpl i = true) :
    cbOp s i = .err .opcodeUnimplemented s := by
  simp only [cbUnimpl, Bool.and_eq_true, decide_eq_true_eq, Bool.not_eq_true'] at h
  obtain ⟨hle, himp⟩ := h
  unfold cbOp
  rw [if_neg (by omega)]
  split <;> first
  | rfl
  | simp_all [cbImplemented]

/-- C7 counterexample: two different unimplemented opcodes (0x17 and 0x34)
produce the very same error value — the exception does not identify the
opcode byte — and the machine is left with PC = 0x0101, one past the opcode,
not restored to the pre-fetch value 0x0100. -/
theorem c7_error_generic_cex :
    c7_cex1.regs.pc = 0x0100 ∧
    (stepStates c7_cex1 1).isOk = false ∧
    (stepStates c7_cex1 1).errKind = some .opcodeUnimplemented ∧
    (stepStates c7_cex2 1).errKind = (stepStates c7_cex1 1).errKind ∧
    (stepStates c7_cex1 1).state.regs.pc = 0x0101 ∧
    ¬ (stepStates c7_cex1 1).state.regs.pc = 0x0100 := by decide

/-- C7 as amended: hitting an unimplemented primary slot makes
`execute_next_operation` fail with the constant, opcode-independent
`Exception("Opcode unimplemented!")`, with PC advanced one past the opcode
byte (not restored); an unimplemented CB slot fails the same way with PC
advanced two past the 0xCB prefix. -/
theorem c7_unimplemented_generic_error (s : Machine) :
    (unimplPrimary (busRead s s.regs.pc) = true →
      executeNextOperation s = .err .opcodeUnimplemented
        { s with regs := { s.regs with pc := (s.regs.pc + 1) &&& 65535 } }) ∧
    (busRead s s.regs.pc = 0xCB →
      cbUnimpl (busRead s ((s.regs.pc + 1) &&& 65535)) = true →
      executeNextOperation s = .err .opcodeUnimplemented
        { s with regs := { s.regs with pc := ((((s.regs.pc + 1) &&& 65535) + 1) &&& 65535) } }) := by
  constructor
  · intro h
    have hk0 : busRead s s.regs.pc ≠ 0 := by
      intro h0
      rw [h0] at h
      exact absurd h (by decide)
    rw [executeNextOperation_eq_of_op s (busRead s s.regs.pc) rfl hk0,
      execOp_unimpl _ _ h]
  · intro hcb hun
    rw [executeNextOperation_eq_of_op s 0xCB hcb (by decide), execOp_cb_arm]
    unfold callCbOp
    rw [cbOp_unimpl _ _ (by exact hun)]

/-- C7 witness: the primary slot 0x17 and the CB slot 0xCB 0x08 both fail
with the constant error, leaving PC one (resp. two) past the fetch address. -/
theorem c7_unimplemented_generic_error_witness :
    executeNextOperation c7_cex2 = .err .opcodeUnimplemented
      { c7_cex2 with regs := { c7_cex2.regs with pc := (c7_cex2.regs.pc + 1) &&& 65535 } } ∧
    executeNextOperation c7_w_cb = .err .opcodeUnimplemented
      { c7_w_cb with regs := { c7_w_cb.regs with pc := ((((c7_w_cb.regs.pc + 1) &&& 65535) + 1) &&& 65535) } } :=
  ⟨(c7_unimplemented_generic_error c7_cex2).1 (by decide),
   (c7_unimplemented_generic_error c7_w_cb).2 (by decide) (by decide)⟩

/-- C10: confirmed.  With nothing pending (`IE & IF = 0`) and a quiet GPU
window, executing RETI (0xD9) overwrites all eight 8-bit registers with the
`rsv` snapshot, sets IME=1, pops PC from the stack and bumps SP by 2; any
RST (here RST 00, 0xC7) is what takes that snapshot, copying the live
register file into `rsv`; and after reset the snapshot is all zeros.  Thus
RETI does not preserve the register file held at the point of return. -/
theorem c10_reti_loads_rsv_snapshot (s s' : Machine) :
    (busRead s s.regs.pc = 0xD9 →
      s.gpu.linemode = 2 → s.gpu.modeClock + 12 < 20 →
      busRead s 0xFFFF &&& busRead s 0xFF0F = 0 →
      (executeNextOperation s).isOk = true ∧
      (executeNextOperation s).state.regs.a = s.rsv.a ∧
      (executeNextOperation s).state.regs.b = s.rsv.b ∧
      (executeNextOperation s).state.regs.c = s.rsv.c ∧
      (executeNextOperation s).state.regs.d = s.rsv.d ∧
      (executeNextOperation s).state.regs.e = s.rsv.e ∧
      (executeNextOperation s).state.regs.f = s.rsv.f ∧
      (executeNextOperation s).state.regs.h = s.rsv.h ∧
      (executeNextOperation s).state.regs.l = s.rsv.l ∧
      (executeNextOperation s).state.regs.ime = 1 ∧
      (executeNextOperation s).state.regs.pc = busReadWord s s.regs.sp ∧
      (executeNextOperation s).state.regs.sp = s.regs.sp + 2) ∧
    (busRead s' s'.regs.pc = 0xC7 →
      (executeNextOperation s').isOk = true ∧
      (executeNextOperation s').state.rsv.a = s'.regs.a ∧
      (executeNextOperation s').state.rsv.b = s'.regs.b ∧
      (executeNextOperation s').state.rsv.c = s'.regs.c ∧
      (executeNextOperation s').state.rsv.d = s'.regs.d ∧
      (executeNextOperation s').state.rsv.e = s'.regs.e ∧
      (executeNextOperation s').state.rsv.f = s'.regs.f ∧
      (executeNextOperation s').state.rsv.h = s'.regs.h ∧
      (executeNextOperation s').state.rsv.l = s'.regs.l) ∧
    (initMachine.rsv.a = 0 ∧ initMachine.rsv.b = 0 ∧ initMachine.rsv.c = 0 ∧
     initMachine.rsv.d = 0 ∧ initMachine.rsv.e = 0 ∧ initMachine.rsv.f = 0 ∧
     initMachine.rsv.h = 0 ∧ initMachine.rsv.l = 0) := by
  refine ⟨?_, ?_, ⟨rfl, rfl, rfl, rfl, rfl, rfl, rfl, rfl⟩⟩
  · intro hop hlm hmc hIE
    set s1 : Machine := { s with regs := { s.regs with pc := (s.regs.pc + 1) &&& 65535 } } with hs1def
    have hstep : executeNextOperation s = .ok (handleInterrupts (incClock (reti s1))) := by
      rw [executeNextOperation_eq_of_op s 0xD9 hop (by decide), execOp_reti_arm]
    set s2 : Machine := { reti s1 with clockM := (reti s1).clockM + (reti s1).regs.m, gpu := { (reti s1).gpu with modeClock := (reti s1).gpu.modeClock + (reti s1).regs.m * 4 } } with hs2def
    have hq : incClock (reti s1) = s2 := incClock_quiet_oam (reti s1) (by exact hlm) (by exact hmc)
    rw [hstep, hq, handleInterrupts_noTrig s2 (by exact hIE)]
    exact ⟨rfl, rfl, rfl, rfl, rfl, rfl, rfl, rfl, rfl, rfl, rfl, rfl⟩
  · intro hop
    have hstep : executeNextOperation s' = .ok (handleInterrupts (incClock
        (rst_n ({ s' with regs := { s'.regs with pc := (s'.regs.pc + 1) &&& 65535 } }) 0x00))) := by
      rw [executeNextOperation_eq_of_op s' 0xC7 hop (by decide), execOp_rst00_arm]
    rw [hstep]
    simp [rst_n, rsvSave, StepOut.state, StepOut.isOk]

/-- C10 witness: on the concrete RETI state the register file becomes the
snapshot 11..18, IME=1, PC comes from the stack (0x0034) and SP grows by 2;
the concrete RST 00 records the post-boot registers A=0x01, C=0x13 into the
snapshot. -/
theorem c10_reti_loads_rsv_snapshot_witness :
    (executeNextOperation c10_w1).isOk = true ∧
    (executeNextOperation c10_w1).state.regs.a = 11 ∧
    (executeNextOperation c10_w1).state.regs.f = 16 ∧
    (executeNextOperation c10_w1).state.regs.l = 18 ∧
    (executeNextOperation c10_w1).state.regs.ime = 1 ∧
    (executeNextOperation c10_w1).state.regs.pc = 0x34 ∧
    (executeNextOperation c10_w1).state.regs.sp = 0x10000 ∧
    (executeNextOperation c10_w2).state.rsv.a = 0x01 ∧
    (executeNextOperation c10_w2).state.rsv.c = 0x13 := by
  have h1 := (c10_reti_loads_rsv_snapshot c10_w1 c10_w2).1
    (by decide) (by decide) (by decide) (by decide)
  have h2 := (c10_reti_loads_rsv_snapshot c10_w1 c10_w2).2.1 (by decide)
  obtain ⟨q1, qa, qb, qc, qd, qe, qf, qh, ql, qime, qpc, qsp⟩ := h1
  have e1 : c10_w1.rsv.a = 11 := by decide
  have e2 : c10_w1.rsv.f = 16 := by decide
  have e3 : c10_w1.rsv.l = 18 := by decide
  have e4 : busReadWord c10_w1 c10_w1.regs.sp = 0x34 := by decide
  have e5 : c10_w1.regs.sp + 2 = 0x10000 := by decide
  have e6 : c10_w2.regs.a = 0x01 := by decide
  have e7 : c10_w2.regs.c = 0x13 := by decide
  rw [e1] at qa
  rw [e2] at qf
  rw [e3] at ql
  rw [e4] at qpc
  rw [e5] at qsp
  have r1 := h2.2.1
  have r2 := h2.2.2.2.1
  rw [e6] at r1
  rw [e7] at r2
  exact ⟨q1, qa, qf, ql, qime, qpc, qsp, r1, r2⟩

end GbEmu
